import Mathlib

/-!
# facebooc: the handlers and start-up code of `src/main.c`

A shallow embedding of `main.c`.  A C `char *` that may be `NULL` is an
`Option String`; a call of a libc string function on `NULL` is a `Fault`.
The parts of the repository that `main.c` only calls (`server.h`, `kv.h`,
`template.h`) are either parameters of the model (`Env`) or small definitions
written from the specification, each marked as such.
-/

namespace Facebooc

/-! ## Data model -/

/-- Modelled from the spec: the request method type of `server.h`, which is absent.
`main.c` names the constant `POST` only. -/
inductive Method
  | GET | HEAD | POST | PUT | DELETE | OTHER
  deriving DecidableEq, Repr

/-- Modelled from the spec: the status constants of `server.h`, which is absent.
`main.c` uses `OK`, `FOUND` and `NOT_FOUND`; the router's fallback is the 500. -/
inductive Status
  | OK | FOUND | NOT_FOUND | INTERNAL_SERVER_ERROR
  deriving DecidableEq, Repr

/-- Modelled from the spec: the numeric code of a status constant. -/
def Status.code : Status → Nat
  | .OK => 200
  | .FOUND => 302
  | .NOT_FOUND => 404
  | .INTERNAL_SERVER_ERROR => 500

/-- Modelled from the spec: the ordered, duplicate-tolerant key-value list of `kv.h`. -/
abbrev KV := List (String × String)

/-- Modelled from the spec: `kvFindList` of `kv.h`, absent: the value of the FIRST
pair with the key, or null. -/
def kvFindList : KV → String → Option String
  | [], _ => none
  | (k, v) :: rest, key => if k = key then some v else kvFindList rest key

/-- Modelled from the spec: the parsed request of `server.h` (section 3). -/
structure Request where
  method : Method
  path : String
  queryString : KV
  headers : KV
  cookies : KV
  postBody : KV
  deriving DecidableEq, Repr

/-- Modelled from the spec: a cookie as passed to `responseAddCookie`
(name, value, domain?, path?, max-age). -/
structure Cookie where
  name : String
  value : String
  domain : Option String
  path : Option String
  maxAge : Int
  deriving DecidableEq, Repr

/-- One entry of the ordered header list of a response: a plain header or a
Set-Cookie computed from a cookie. -/
inductive HeaderLine
  | header (key value : String)
  | setCookie (c : Cookie)
  deriving DecidableEq, Repr

/-- Modelled from the spec: the response of `server.h` (section 3): status, headers in
insertion order (cookies among them), optional body. -/
structure Response where
  status : Status
  headers : List HeaderLine
  body : Option String
  deriving DecidableEq, Repr

/-- Modelled from the spec: `responseNew` gives 200 OK, empty. -/
def responseNew : Response := ⟨Status.OK, [], none⟩

/-- Modelled from the spec: `responseSetStatus`. -/
def responseSetStatus (r : Response) (s : Status) : Response := { r with status := s }

/-- Modelled from the spec: `responseSetBody`. -/
def responseSetBody (r : Response) (b : String) : Response := { r with body := some b }

/-- Modelled from the spec: `responseAddHeader` appends, duplicates preserved. -/
def responseAddHeader (r : Response) (k v : String) : Response :=
  { r with headers := r.headers ++ [HeaderLine.header k v] }

/-- Modelled from the spec: `responseAddCookie` appends a computed Set-Cookie. -/
def responseAddCookie (r : Response) (name value : String) (domain path : Option String)
    (maxAge : Int) : Response :=
  { r with headers := r.headers ++ [HeaderLine.setCookie ⟨name, value, domain, path, maxAge⟩] }

/-- Modelled from the spec: the cookie wire format of section 6,
`name=value[; Domain=d][; Path=p][; Max-Age=n]`, omitted attributes skipped. -/
def Cookie.wire (c : Cookie) : String :=
  c.name ++ "=" ++ c.value
    ++ (match c.domain with | some d => "; Domain=" ++ d | none => "")
    ++ (match c.path with | some p => "; Path=" ++ p | none => "")
    ++ "; Max-Age=" ++ toString c.maxAge

/-- The cookies of a response, in insertion order. -/
def Response.cookies (r : Response) : List Cookie :=
  r.headers.filterMap fun h => match h with
    | .setCookie c => some c
    | .header _ _ => none

/-- The value of the first plain header with the key. -/
def Response.header? (r : Response) (key : String) : Option String :=
  r.headers.findSome? fun h => match h with
    | .header k v => if k = key then some v else none
    | .setCookie _ => none

/-- Modelled from the spec: a template of `template.h`, absent: the source path and
the variables bound so far, in binding order. -/
structure Template where
  path : String
  bindings : List (String × String)
  deriving DecidableEq, Repr

/-- Modelled from the spec: `templateNew(path)`. -/
def templateNew (path : String) : Template := ⟨path, []⟩

/-- Modelled from the spec: `templateSet(t, key, value)` binds a variable. -/
def templateSet (t : Template) (k v : String) : Template :=
  { t with bindings := t.bindings ++ [(k, v)] }

/-! ## libc string functions on nullable pointers -/

/-- The libc functions `signup` calls on request fields. -/
inductive LibcFn
  | strlen | strchr | strcmp
  deriving DecidableEq, Repr

/-- A null pointer handed to a libc string function. -/
inductive Fault
  | nullArg (fn : LibcFn)
  deriving DecidableEq, Repr

/-- The call `strlen(s)`: the number of C chars (bytes) of the string. -/
def strlen : Option String → Except Fault Nat
  | none => .error (.nullArg .strlen)
  | some s => .ok s.utf8ByteSize

/-- The test `strchr(s, c) != NULL`. -/
def strchr : Option String → Char → Except Fault Bool
  | none, _ => .error (.nullArg .strchr)
  | some s, c => .ok (decide (c ∈ s.data))

/-- The call `strcmp(a, b)`: 0 exactly when the strings are equal. -/
def strcmp : Option String → Option String → Except Fault Int
  | some a, some b => .ok (if a = b then 0 else if a < b then -1 else 1)
  | _, _ => .error (.nullArg .strcmp)

/-! ## The environment of `main.c` -/

/-- Result codes of `sqlite3_step`. -/
inductive Rc
  | ROW | DONE | ERROR
  deriving DecidableEq, Repr

/-- The collaborators `main.c` calls but does not define: the sqlite3 library over
database states `σ` and prepared statements `τ`, the clock, the `EXACT_ROUTE` macro of
`server.h`, `templateRender` of `template.h`, and the static file handler. -/
structure Env (σ τ : Type) where
  /-- Library call `sqlite3_prepare_v2`: the statement when the result is `SQLITE_OK`. -/
  prepare_v2 : σ → String → Option τ
  /-- Library call `sqlite3_bind_int`: the statement with the parameter bound when `SQLITE_OK`. -/
  bind_int : τ → Nat → Int → Option τ
  /-- Library call `sqlite3_bind_text`: the statement with the parameter bound when `SQLITE_OK`. -/
  bind_text : τ → Nat → Option String → Option τ
  /-- Library call `sqlite3_step`: the result code and the database afterwards. -/
  step : σ → τ → Rc × σ
  /-- The clock, `time(NULL)`. -/
  time : Int
  /-- The macro `EXACT_ROUTE(req, path)`: true when the handler goes on, false when the macro
  makes it return null. -/
  exactRoute : Request → String → Bool
  /-- The renderer `templateRender`. -/
  templateRender : Template → String
  /-- The handler installed by `serverAddStaticHandler`. -/
  staticHandler : Request → Option Response

/-- Calls recorded while a handler runs. -/
inductive Event
  | createAccount (name email username password : Option String) (res : Bool)
  | templateRender (t : Template)
  | templateDel (t : Template)
  deriving DecidableEq, Repr

/-- The process-wide database and the record of calls made so far. -/
structure World (σ : Type) where
  db : σ
  log : List Event

/-- Append an event to the record. -/
def World.emit {σ : Type} (w : World σ) (e : Event) : World σ :=
  { w with log := w.log ++ [e] }

/-- A handler: null or a response, or a fault of the process. -/
abbrev Handler (σ : Type) := Request → World σ → Except Fault (Option Response × World σ)

/-! ## MODEL (main.c 109-175) -/

variable {σ τ : Type}

/-- The function `checkUsername` (main.c 109-127). -/
def checkUsername (env : Env σ τ) (db : σ) (username : Option String) : Bool × σ :=
  match env.prepare_v2 db "SELECT id FROM accounts WHERE username = ?" with
  | none => (false, db)
  | some statement =>
    match env.bind_text statement 1 username with
    | none => (false, db)
    | some statement =>
      let r := env.step db statement
      (decide (r.1 ≠ Rc.ROW), r.2)

/-- The function `checkEmail` (main.c 129-147). -/
def checkEmail (env : Env σ τ) (db : σ) (email : Option String) : Bool × σ :=
  match env.prepare_v2 db "SELECT id FROM accounts WHERE email = ?" with
  | none => (false, db)
  | some statement =>
    match env.bind_text statement 1 email with
    | none => (false, db)
    | some statement =>
      let r := env.step db statement
      (decide (r.1 ≠ Rc.ROW), r.2)

/-- The SQL text of `createAccount`. -/
def insertAccountSql : String :=
  "INSERT INTO accounts(createdAt, name, email, username, password)" ++
  "     VALUES         (        ?,    ?,     ?,        ?,        ?)"

/-- The function `createAccount` (main.c 149-175). -/
def createAccount (env : Env σ τ) (db : σ) (name email username password : Option String) :
    Bool × σ :=
  match env.prepare_v2 db insertAccountSql with
  | none => (false, db)
  | some s0 =>
    match env.bind_int s0 1 env.time with
    | none => (false, db)
    | some s1 =>
    match env.bind_text s1 2 name with
    | none => (false, db)
    | some s2 =>
    match env.bind_text s2 3 email with
    | none => (false, db)
    | some s3 =>
    match env.bind_text s3 4 username with
    | none => (false, db)
    | some s4 =>
    match env.bind_text s4 5 password with
    | none => (false, db)
    | some s5 =>
      let r := env.step db s5
      (decide (r.1 = Rc.DONE), r.2)

/-! ## HANDLERS (main.c 177-344) -/

/-- The locals `template` and `valid` of `signup`, which the macro `invalid` updates. -/
structure Form where
  template : Template
  valid : Bool
  deriving DecidableEq, Repr

/-- The macro `invalid(k, v)` (main.c 180-183): `templateSet(template, k, v); valid = false;`. -/
def invalid (f : Form) (k v : String) : Form :=
  ⟨templateSet f.template k v, false⟩

/-- The common tail of the rendering handlers:
`responseSetBody(response, templateRender(template)); templateDel(template); return response;`. -/
def renderAndReturn (env : Env σ τ) (response : Response) (template : Template) (w : World σ) :
    Option Response × World σ :=
  let response := responseSetBody response (env.templateRender template)
  (some response, (w.emit (.templateRender template)).emit (.templateDel template))

/-- The handler `home` (main.c 185-196). -/
def home (env : Env σ τ) : Handler σ := fun req w =>
  if env.exactRoute req "/" = false then .ok (none, w) else
  let response := responseNew
  let template := templateNew "templates/index.html"
  let response := responseSetStatus response Status.OK
  let template := templateSet template "subtitle" "Dashboard"
  let template := templateSet template "username" "Bogdan"
  .ok (renderAndReturn env response template w)

/-- The handler `dashboard` (main.c 198-209). -/
def dashboard (env : Env σ τ) : Handler σ := fun req w =>
  if env.exactRoute req "/" = false then .ok (none, w) else
  let response := responseNew
  let template := templateNew "templates/index.html"
  let response := responseSetStatus response Status.OK
  let template := templateSet template "subtitle" "Dashboard"
  let template := templateSet template "username" "Bogdan"
  .ok (renderAndReturn env response template w)

/-- The handler `login` (main.c 211-237). -/
def login (env : Env σ τ) : Handler σ := fun req w =>
  if env.exactRoute req "/login/" = false then .ok (none, w) else
  let response := responseNew
  let template := templateNew "templates/login.html"
  let response := responseSetStatus response Status.OK
  let template := templateSet template "subtitle" "Login"
  let template :=
    if req.method = Method.POST then
      let username := kvFindList req.postBody "username"
      let password := kvFindList req.postBody "password"
      let template :=
        match username with
        | none => templateSet template "usernameError" "Username missing!"
        | some u => templateSet template "formUsername" u
      match password with
      | none => templateSet template "passwordError" "Password missing!"
      | some _ => template
    else template
  .ok (renderAndReturn env response template w)

/-- The handler `logout` (main.c 239-247). -/
def logout (env : Env σ τ) : Handler σ := fun req w =>
  if env.exactRoute req "/logout/" = false then .ok (none, w) else
  let response := responseNew
  let response := responseSetStatus response Status.FOUND
  let response := responseAddCookie response "sid" "" none none (-1)
  let response := responseAddHeader response "Location" "/"
  .ok (some response, w)

/-- The name block of `signup` (main.c 265-271). -/
def signupName (name : Option String) (f : Form) : Except Fault Form :=
  match name with
  | none => .ok (invalid f "nameError" "You must enter your name!")
  | some n => do
    let len ← strlen (some n)
    if len < 5 ∨ len > 50 then
      pure (invalid f "nameError" "Your name must be between 5 and 50 characters long.")
    else
      pure { f with template := templateSet f.template "formName" n }

/-- The email block of `signup` (main.c 273-283). -/
def signupEmail (env : Env σ τ) (email : Option String) (f : Form) (db : σ) :
    Except Fault (Form × σ) :=
  match email with
  | none => .ok (invalid f "emailError" "You must enter an email!", db)
  | some e => do
    let found ← strchr (some e) '@'
    if found = false then
      pure (invalid f "emailError" "Invalid email.", db)
    else
      let len ← strlen (some e)
      if len < 3 ∨ len > 50 then
        pure (invalid f "emailError" "Your email must be between 3 and 50 characters long.", db)
      else
        let r := checkEmail env db (some e)
        if r.1 = false then
          pure (invalid f "emailError" "This email is taken.", r.2)
        else
          pure ({ f with template := templateSet f.template "formEmail" e }, r.2)

/-- The username block of `signup` (main.c 285-293). -/
def signupUsername (env : Env σ τ) (username : Option String) (f : Form) (db : σ) :
    Except Fault (Form × σ) :=
  match username with
  | none => .ok (invalid f "usernameError" "You must enter a username!", db)
  | some u => do
    let len ← strlen (some u)
    if len < 3 ∨ len > 50 then
      pure (invalid f "usernameError"
        "Your username must be between 3 and 50 characters long.", db)
    else
      let r := checkUsername env db (some u)
      if r.1 = false then
        pure (invalid f "usernameError" "This username is taken.", r.2)
      else
        pure ({ f with template := templateSet f.template "formUsername" u }, r.2)

/-- The password block of `signup` (main.c 295-299). -/
def signupPassword (password : Option String) (f : Form) : Except Fault Form :=
  match password with
  | none => .ok (invalid f "passwordError" "You must enter a password!")
  | some p => do
    let len ← strlen (some p)
    if len < 8 then
      pure (invalid f "passwordError" "Your password must be at least 8 characters long!")
    else
      pure f

/-- The confirm-password block of `signup` (main.c 301-305): `password` is handed to
`strcmp` as it is, with no null test of its own. -/
def signupConfirm (password confirmPassword : Option String) (f : Form) : Except Fault Form :=
  match confirmPassword with
  | none => .ok (invalid f "confirmPasswordError" "You must confirm your password.")
  | some c => do
    let d ← strcmp password (some c)
    if d ≠ 0 then
      pure (invalid f "confirmPasswordError" "The two passwords must be the same.")
    else
      pure f

/-- The handler `signup` (main.c 249-322). -/
def signup (env : Env σ τ) : Handler σ := fun req w =>
  if env.exactRoute req "/signup/" = false then .ok (none, w) else
  let response := responseNew
  let template := templateNew "templates/signup.html"
  let template := templateSet template "subtitle" "Sign Up"
  let response := responseSetStatus response Status.OK
  if req.method = Method.POST then do
    let name := kvFindList req.postBody "name"
    let email := kvFindList req.postBody "email"
    let username := kvFindList req.postBody "username"
    let password := kvFindList req.postBody "password"
    let confirmPassword := kvFindList req.postBody "confirm-password"
    let f ← signupName name ⟨template, true⟩
    let fe ← signupEmail env email f w.db
    let fu ← signupUsername env username fe.1 fe.2
    let f ← signupPassword password fu.1
    let f ← signupConfirm password confirmPassword f
    let w : World σ := { w with db := fu.2 }
    if f.valid = true then
      let r := createAccount env w.db name email username password
      let w : World σ :=
        ({ w with db := r.2 }).emit (.createAccount name email username password r.1)
      if r.1 = true then
        let response := responseSetStatus response Status.FOUND
        let response := responseAddHeader response "Location" "/login/"
        pure (some response, w.emit (.templateDel f.template))
      else
        let f := invalid f "nameError" "Unexpected error. Please try again later."
        pure (renderAndReturn env response f.template w)
    else
      pure (renderAndReturn env response f.template w)
  else
    .ok (renderAndReturn env response template w)

/-- The handler `about` (main.c 324-334). -/
def about (env : Env σ τ) : Handler σ := fun req w =>
  if env.exactRoute req "/about/" = false then .ok (none, w) else
  let response := responseNew
  let template := templateNew "templates/about.html"
  let template := templateSet template "subtitle" "About"
  let response := responseSetStatus response Status.OK
  .ok (renderAndReturn env response template w)

/-- The handler `notFound` (main.c 336-344): no route test. -/
def notFound (env : Env σ τ) : Handler σ := fun _ w =>
  let response := responseNew
  let template := templateNew "templates/404.html"
  let template := templateSet template "subtitle" "404 Not Found"
  let response := responseSetStatus response Status.NOT_FOUND
  .ok (renderAndReturn env response template w)

/-! ## Router (server.h) -/

/-- The function pointers `main` registers. -/
inductive HandlerId
  | home | dashboard | login | logout | signup | about | static | notFound
  deriving DecidableEq, Repr

/-- Calling a registered function pointer. -/
def HandlerId.call (env : Env σ τ) : HandlerId → Handler σ
  | .home => Facebooc.home env
  | .dashboard => Facebooc.dashboard env
  | .login => Facebooc.login env
  | .logout => Facebooc.logout env
  | .signup => Facebooc.signup env
  | .about => Facebooc.about env
  | .static => fun req w => .ok (env.staticHandler req, w)
  | .notFound => Facebooc.notFound env

/-- Modelled from the spec: the server of `server.h`, absent: the port and the
dispatch list, first element dispatched first. -/
structure Server where
  port : Nat
  handlers : List HandlerId
  deriving DecidableEq, Repr

/-- Modelled from the spec: `serverNew(port)` binds without listening; no handlers yet. -/
def serverNew (port : Nat) : Server := ⟨port, []⟩

/-- Modelled from the spec: `serverAddHandler(server, h)` inserts `h` at the FRONT of
the dispatch list. -/
def serverAddHandler (server : Server) (h : HandlerId) : Server :=
  { server with handlers := h :: server.handlers }

/-- Modelled from the spec: `serverAddStaticHandler` inserts the static file handler
similarly, at its call-site position. -/
def serverAddStaticHandler (server : Server) : Server :=
  serverAddHandler server HandlerId.static

/-- What one dispatch produced: the response, the handler that claimed the request
(none for the routing-exhausted fallback), the handlers evaluated, in order, and the
world afterwards. -/
structure Dispatched (σ : Type) where
  response : Response
  claimedBy : Option HandlerId
  evaluated : List HandlerId
  world : World σ

/-- Modelled from the spec: dispatch of `server.c`, absent: iterate the list in order,
stop at the first handler returning a non-null Response; if all return null, respond
500. -/
def dispatch (env : Env σ τ) : List HandlerId → Request → World σ → Except Fault (Dispatched σ)
  | [], _, w => .ok ⟨⟨Status.INTERNAL_SERVER_ERROR, [], none⟩, none, [], w⟩
  | h :: rest, req, w =>
    match h.call env req w with
    | .error e => .error e
    | .ok (some r, w1) => .ok ⟨r, some h, [h], w1⟩
    | .ok (none, w1) =>
      match dispatch env rest req w1 with
      | .error e => .error e
      | .ok d => .ok { d with evaluated := h :: d.evaluated }

/-! ## INITIALIZATION (main.c 14-105) -/

/-- The file-scope variables `server` and `DB` (main.c 14-15), null until assigned. -/
structure Globals (σ : Type) where
  server : Option Server
  DB : Option σ

/-- The two signals `main` binds. -/
inductive Signal
  | SIGINT | SIGTERM
  deriving DecidableEq, Repr

/-- What the process start-up depends on: whether `signal` binds, what `sqlite3_open`
gives (the handle when it returns 0) and whether a `sqlite3_exec` returns `SQLITE_OK`
(the database afterwards). -/
structure Boot (σ : Type) where
  signal : Signal → Bool
  sqlite3_open : String → Option σ
  sqlite3_exec : σ → String → Option σ

/-- What a run of the signal handler does, in order. -/
inductive Action (σ : Type)
  | serverDel (s : Server)
  | sqlite3_close (db : σ)
  | print (signum : Int)
  | exit (code : Nat)
  deriving DecidableEq, Repr

/-- The signal handler `sig` (main.c 17-23); `server` and `DB` are the file-scope
variables. -/
def sig (g : Globals σ) (signum : Int) : List (Action σ) :=
  (match g.server with
    | some server => [Action.serverDel server]
    | none => [])
  ++ (match g.DB with
    | some db => [Action.sqlite3_close db]
    | none => [])
  ++ [Action.print signum, Action.exit 0]

/-- The function `createDB` (main.c 25-33): the database after the statement, or
`exit(1)`. -/
def createDB (boot : Boot σ) (db : σ) (e : String) : Except Nat σ :=
  match boot.sqlite3_exec db e with
  | none => .error 1
  | some db => .ok db

/-- The function `initDB` (main.c 35-70): assigns the file-scope `DB`, or `exit(1)`. -/
def initDB (boot : Boot σ) (g : Globals σ) : Except Nat (Globals σ) :=
  match boot.sqlite3_open "db.sqlite3" with
  | none => .error 1
  | some db => do
    let db ← createDB boot db
      ("CREATE TABLE IF NOT EXISTS accounts ("
       ++ "  id        INTEGER PRIMARY KEY ASC"
       ++ ", createdAt INTEGER"
       ++ ", name      TEXT"
       ++ ", username  TEXT"
       ++ ", email     TEXT UNIQUE"
       ++ ", password  TEXT"
       ++ ")")
    let db ← createDB boot db
      ("CREATE TABLE IF NOT EXISTS sessions ("
       ++ "  id        INTEGER PRIMARY KEY ASC"
       ++ ", createdAt INTEGER"
       ++ ", account   INTEGER"
       ++ ", session   TEXT"
       ++ ")")
    let db ← createDB boot db
      ("CREATE TABLE IF NOT EXISTS posts ("
       ++ "  id        INTEGER PRIMARY KEY ASC"
       ++ ", createdAt INTEGER"
       ++ ", author    INTEGER"
       ++ ", title     TEXT"
       ++ ", body      TEXT"
       ++ ")")
    let db ← createDB boot db
      ("CREATE TABLE IF NOT EXISTS likes ("
       ++ "  id     INTEGER PRIMARY KEY ASC"
       ++ ", author INTEGER"
       ++ ", post   INTEGER"
       ++ ")")
    pure { g with DB := some db }

/-- The local variable `server` of `main` when `serverServe` is called (main.c 93-101). -/
def mainServer : Server :=
  let server := serverNew 8091
  let server := serverAddHandler server HandlerId.notFound
  let server := serverAddStaticHandler server
  let server := serverAddHandler server HandlerId.about
  let server := serverAddHandler server HandlerId.signup
  let server := serverAddHandler server HandlerId.logout
  let server := serverAddHandler server HandlerId.login
  let server := serverAddHandler server HandlerId.dashboard
  let server := serverAddHandler server HandlerId.home
  server

/-- How far `main` gets: it ends with a status, or it enters `serverServe(server)`
with the file-scope variables as they then are and its local `server`. -/
inductive Startup (σ : Type)
  | exited (code : Nat)
  | serving (g : Globals σ) (server : Server)

/-- The function `main` (main.c 82-105).  `Server *server = serverNew(8091);` declares
a local variable: the file-scope `server` is not assigned. -/
def main (boot : Boot σ) : Startup σ :=
  let g : Globals σ := ⟨none, none⟩
  if boot.signal Signal.SIGINT = false ∨ boot.signal Signal.SIGTERM = false then
    Startup.exited 1
  else
    match initDB boot g with
    | .error code => Startup.exited code
    | .ok g =>
      let server := mainServer
      Startup.serving g server

/-! ## A concrete environment -/

/-- An environment for evaluation: `EXACT_ROUTE` compares the request path with the
literal, the database is a counter of steps, statements are their bound texts, every
sqlite call succeeds, `INSERT` steps are done and `SELECT` steps find no row, the
renderer prints the template path and the bound keys, and no static file exists. -/
def pathEnv : Env Nat (List (Option String)) where
  prepare_v2 := fun _ sql => some [some sql]
  bind_int := fun st _ _ => some st
  bind_text := fun st _ v => some (st ++ [v])
  step := fun db _ => (Rc.DONE, db + 1)
  time := 0
  exactRoute := fun req path => decide (req.path = path)
  templateRender := fun t => t.path ++ ":" ++ String.intercalate "," (t.bindings.map Prod.fst)
  staticHandler := fun _ => none

/-- A request with the given method, path and form fields and nothing else. -/
def mkRequest (method : Method) (path : String) (postBody : KV) : Request :=
  ⟨method, path, [], [], [], postBody⟩

/-- The world before any call. -/
def world0 : World Nat := ⟨0, []⟩

/-! ## The sqlite3 library on the schema of `initDB` -/

/-- A row of the table `accounts` (main.c 41-48); a NULL column is `none`. -/
structure Account where
  createdAt : Option Int
  name : Option String
  username : Option String
  email : Option String
  password : Option String
  deriving DecidableEq, Repr

/-- A prepared statement: its SQL text and the values bound to its parameters, the
latest binding first. -/
structure Stmt where
  sql : String
  ints : List (Nat × Int)
  texts : List (Nat × Option String)
  deriving DecidableEq, Repr

/-- The text bound to a parameter; NULL when nothing or a null pointer was bound. -/
def Stmt.text (st : Stmt) (i : Nat) : Option String :=
  (st.texts.lookup i).join

/-- Whether a row with this value in the column exists; NULL equals nothing. -/
def hasRow (db : List Account) (column : Account → Option String) (v : Option String) : Bool :=
  match v with
  | some s => db.any fun row => decide (column row = some s)
  | none => false

/-- The library call `sqlite3_step` on the three statements of `main.c`, as SQL defines
them on the table `accounts`: a SELECT finds a row exactly when one holds the bound
value in the column; the INSERT is refused when its email is already in the table
(`email TEXT UNIQUE`) and adds the row otherwise.  Any other statement is an error. -/
def sqliteStep (db : List Account) (st : Stmt) : Rc × List Account :=
  if st.sql = "SELECT id FROM accounts WHERE username = ?" then
    (if hasRow db Account.username (st.text 1) then Rc.ROW else Rc.DONE, db)
  else if st.sql = "SELECT id FROM accounts WHERE email = ?" then
    (if hasRow db Account.email (st.text 1) then Rc.ROW else Rc.DONE, db)
  else if st.sql = insertAccountSql then
    if hasRow db Account.email (st.text 3) then (Rc.ERROR, db)
    else (Rc.DONE, db ++ [⟨st.ints.lookup 1, st.text 2, st.text 4, st.text 3, st.text 5⟩])
  else (Rc.ERROR, db)

/-- The environment in which sqlite3 works as SQL defines it: every prepare and bind
succeeds and a step is `sqliteStep`.  The route test, the renderer, the static handler
and the clock stay parameters. -/
def sqliteEnv (exactRoute : Request → String → Bool) (templateRender : Template → String)
    (staticHandler : Request → Option Response) (time : Int) : Env (List Account) Stmt where
  prepare_v2 := fun _ sql => some ⟨sql, [], []⟩
  bind_int := fun st i v => some { st with ints := (i, v) :: st.ints }
  bind_text := fun st i v => some { st with texts := (i, v) :: st.texts }
  step := sqliteStep
  time := time
  exactRoute := exactRoute
  templateRender := templateRender
  staticHandler := staticHandler

/-! ## Definitions used to state the results -/

/-- Whether the event is a call of `createAccount`. -/
def Event.isCreateAccount : Event → Bool
  | .createAccount _ _ _ _ _ => true
  | _ => false

/-- The template an event carries, if any. -/
def Event.template? : Event → Option Template
  | .templateRender t => some t
  | .templateDel t => some t
  | .createAccount _ _ _ _ _ => none

/-- The templates rendered or released in a record of calls, in order. -/
def templatesOf (log : List Event) : List Template :=
  log.filterMap Event.template?

/-- One block of `signup` took the locals from `f` to `f1`: same template file, nothing
unbound, `valid` never set back to true, and every new binding satisfies `A`. -/
def Form.Step (A : String × String → Prop) (f f1 : Form) : Prop :=
  f1.template.path = f.template.path ∧ (f1.valid = true → f.valid = true) ∧
    (∀ b ∈ f.template.bindings, b ∈ f1.template.bindings) ∧
    (∀ b ∈ f1.template.bindings, b ∈ f.template.bindings ∨ A b)

/-- The literal strings `main.c` binds to template variables in `login` and `signup`. -/
def fixedMessages : List String :=
  [ "Login", "Username missing!", "Password missing!", "Sign Up",
    "You must enter your name!", "Your name must be between 5 and 50 characters long.",
    "You must enter an email!", "Invalid email.",
    "Your email must be between 3 and 50 characters long.", "This email is taken.",
    "You must enter a username!", "Your username must be between 3 and 50 characters long.",
    "This username is taken.", "You must enter a password!",
    "Your password must be at least 8 characters long!", "You must confirm your password.",
    "The two passwords must be the same.", "Unexpected error. Please try again later." ]

/-- The binding is a literal message of `main.c`, or `formName`, `formEmail` or
`formUsername` bound to the submitted name, email or username. -/
def Echoes (name email username : Option String) (b : String × String) : Prop :=
  b.2 ∈ fixedMessages ∨ (b.1 = "formName" ∧ name = some b.2) ∨
    (b.1 = "formEmail" ∧ email = some b.2) ∨ (b.1 = "formUsername" ∧ username = some b.2)

/-! ## Concrete inputs -/

/-- A start-up in which every call succeeds: both signals bind, `sqlite3_open` gives
database 0 and each `sqlite3_exec` moves the database on by one. -/
def okBoot : Boot Nat where
  signal := fun _ => true
  sqlite3_open := fun _ => some 0
  sqlite3_exec := fun db _ => some (db + 1)

/-- A signup form with a confirm-password field and no password field. -/
def confirmOnlyRequest : Request :=
  mkRequest Method.POST "/signup/" [("confirm-password", "secret123")]

/-- A full signup form with the given password, confirmed. -/
def signupForm (password : String) : Request :=
  mkRequest Method.POST "/signup/" [("name", "Alice Doe"), ("email", "a@b.c"),
    ("username", "alice"), ("password", password), ("confirm-password", password)]

/-! ## Shared lemmas -/

/-- The environment `sqliteEnv` with the route test, renderer and static handler of
`pathEnv`. -/
def pathSqliteEnv : Env (List Account) Stmt :=
  sqliteEnv pathEnv.exactRoute pathEnv.templateRender pathEnv.staticHandler 0

/-- An empty table `accounts` and no call made. -/
def emptyWorld : World (List Account) := ⟨[], []⟩

theorem signup_of_not_route (env : Env σ τ) (req : Request) (w : World σ)
    (h : env.exactRoute req "/signup/" = false) : signup env req w = .ok (none, w) := by
  simp [signup, h]

theorem signup_not_null (env : Env σ τ) (req : Request) (w w1 : World σ)
    (h : env.exactRoute req "/signup/" = true) : signup env req w ≠ .ok (none, w1) := by
  unfold signup
  simp only [h, Bool.true_eq_false, if_false]
  by_cases hm : req.method = Method.POST
  · simp only [hm, if_true]
    cases signupName (kvFindList req.postBody "name") ⟨templateSet (templateNew "templates/signup.html") "subtitle" "Sign Up", true⟩ with
    | error e => simp [bind, Except.bind]
    | ok f1 =>
      cases h2 : signupEmail env (kvFindList req.postBody "email") f1 w.db with
      | error e => simp [bind, Except.bind, h2]
      | ok fe =>
        cases h3 : signupUsername env (kvFindList req.postBody "username") fe.1 fe.2 with
        | error e => simp [bind, Except.bind, h2, h3]
        | ok fu =>
          cases h4 : signupPassword (kvFindList req.postBody "password") fu.1 with
          | error e => simp [bind, Except.bind, h2, h3, h4]
          | ok f4 =>
            cases h5 : signupConfirm (kvFindList req.postBody "password")
                (kvFindList req.postBody "confirm-password") f4 with
            | error e => simp [bind, Except.bind, h2, h3, h4, h5]
            | ok f5 =>
              simp only [bind, Except.bind, h2, h3, h4, h5]
              split_ifs <;> simp [pure, Except.pure, renderAndReturn]
  · simp [hm, renderAndReturn]

theorem call_null_world (env : Env σ τ) (h : HandlerId) (req : Request) (w w1 : World σ)
    (hc : h.call env req w = .ok (none, w1)) : w1 = w := by
  cases h with
  | signup =>
    by_cases hr : env.exactRoute req "/signup/" = true
    · exact absurd hc (signup_not_null env req w w1 hr)
    · simp only [Bool.not_eq_true] at hr
      simp [HandlerId.call, signup_of_not_route env req w hr] at hc
      exact hc.symm
  | static => simp [HandlerId.call] at hc; exact hc.2.symm
  | home => 
    simp only [HandlerId.call, home, renderAndReturn] at hc
    split_ifs at hc <;> simp_all
  | dashboard =>
    simp only [HandlerId.call, dashboard, renderAndReturn] at hc
    split_ifs at hc <;> simp_all
  | login =>
    simp only [HandlerId.call, login, renderAndReturn] at hc
    split_ifs at hc <;> simp_all
  | logout =>
    simp only [HandlerId.call, logout] at hc
    split_ifs at hc <;> simp_all
  | about =>
    simp only [HandlerId.call, about, renderAndReturn] at hc
    split_ifs at hc <;> simp_all
  | notFound =>
    simp [HandlerId.call, notFound, renderAndReturn] at hc

theorem dispatch_first (env : Env σ τ) (req : Request) (h : HandlerId) (post : List HandlerId)
    (r : Response) (w w2 : World σ) :
    ∀ pre : List HandlerId, (∀ g ∈ pre, ∃ w1, g.call env req w = .ok (none, w1)) →
      h.call env req w = .ok (some r, w2) →
      dispatch env (pre ++ h :: post) req w = .ok ⟨r, some h, pre ++ [h], w2⟩ := by
  intro pre
  induction pre with
  | nil =>
    intro _ hh
    simp [dispatch, hh]
  | cons g pre ih =>
    intro hpre hh
    obtain ⟨w1, hg⟩ := hpre g (List.mem_cons_self g pre)
    have hw : w1 = w := call_null_world env g req w w1 hg
    subst hw
    have := ih (fun g' hg' => hpre g' (List.mem_cons_of_mem g hg')) hh
    simp [dispatch, hg, this]

theorem dispatch_ok_cases (env : Env σ τ) (req : Request) (w : World σ) :
    ∀ (l : List HandlerId) (d : Dispatched σ), dispatch env l req w = .ok d →
      (∃ pre h post, l = pre ++ h :: post ∧ (∀ g ∈ pre, g.call env req w = .ok (none, w)) ∧
          h.call env req w = .ok (some d.response, d.world) ∧ d.claimedBy = some h ∧
          d.evaluated = pre ++ [h])
      ∨ ((∀ g ∈ l, g.call env req w = .ok (none, w)) ∧ d.claimedBy = none ∧ d.evaluated = l ∧
          d.response = ⟨Status.INTERNAL_SERVER_ERROR, [], none⟩) := by
  intro l
  induction l with
  | nil =>
    intro d hd
    simp only [dispatch, Except.ok.injEq] at hd
    subst hd
    right
    simp
  | cons g rest ih =>
    intro d hd
    simp only [dispatch] at hd
    cases hg : g.call env req w with
    | error e => simp [hg] at hd
    | ok res =>
      obtain ⟨ro, w1⟩ := res
      cases ro with
      | some r =>
        simp only [hg, Except.ok.injEq] at hd
        subst hd
        left
        exact ⟨[], g, rest, by simp, by simp, hg, rfl, by simp⟩
      | none =>
        have hw : w1 = w := call_null_world env g req w w1 hg
        subst hw
        simp only [hg] at hd
        cases hrest : dispatch env rest req w1 with
        | error e => simp [hrest] at hd
        | ok d1 =>
          simp only [hrest, Except.ok.injEq] at hd
          subst hd
          rcases ih d1 hrest with ⟨pre, h, post, hl, hpre, hh, hc, he⟩ | ⟨hall, hc, he, hr⟩
          · left
            refine ⟨g :: pre, h, post, by simp [hl], ?_, hh, hc, by simp [he]⟩
            intro g1 hg1
            rcases List.mem_cons.mp hg1 with rfl | hmem
            · exact hg
            · exact hpre g1 hmem
          · right
            refine ⟨?_, hc, by simp [he], hr⟩
            intro g1 hg1
            rcases List.mem_cons.mp hg1 with rfl | hmem
            · exact hg
            · exact hall g1 hmem

theorem notFound_eq (env : Env σ τ) (req : Request) (w : World σ) :
    notFound env req w =
      .ok (some ⟨Status.NOT_FOUND, [], some (env.templateRender
              ⟨"templates/404.html", [("subtitle", "404 Not Found")]⟩)⟩,
           (w.emit (.templateRender ⟨"templates/404.html", [("subtitle", "404 Not Found")]⟩)).emit
             (.templateDel ⟨"templates/404.html", [("subtitle", "404 Not Found")]⟩)) := by
  rfl

/-- On the dispatch list of `main` the routing-exhausted fallback is never the
outcome: a dispatch that completes was claimed by a handler. -/
theorem dispatch_main_claimed (env : Env σ τ) (req : Request) (w : World σ)
    (d : Dispatched σ) (hd : dispatch env mainServer.handlers req w = .ok d) :
    ∃ h, d.claimedBy = some h ∧ h ∈ mainServer.handlers ∧
      h.call env req w = .ok (some d.response, d.world) := by
  rcases dispatch_ok_cases env req w _ d hd with ⟨pre, h, post, hl, _, hh, hc, _⟩ | ⟨hall, _, _, _⟩
  · exact ⟨h, hc, by rw [hl]; simp, hh⟩
  · have := hall HandlerId.notFound (by decide)
    simp [HandlerId.call, notFound_eq] at this

theorem dispatch_total (env : Env σ τ) (req : Request) (w : World σ) :
    ∀ l : List HandlerId, (∀ g ∈ l, ∃ res, g.call env req w = .ok res) →
      ∃ d, dispatch env l req w = .ok d := by
  intro l
  induction l with
  | nil => intro _; exact ⟨_, rfl⟩
  | cons g rest ih =>
    intro hall
    obtain ⟨res, hg⟩ := hall g (List.mem_cons_self g rest)
    obtain ⟨ro, w1⟩ := res
    cases ro with
    | some r => exact ⟨⟨r, some g, [g], w1⟩, by simp [dispatch, hg]⟩
    | none =>
      have hw : w1 = w := call_null_world env g req w w1 hg
      subst hw
      obtain ⟨d, hd⟩ := ih (fun g1 hg1 => hall g1 (List.mem_cons_of_mem g hg1))
      exact ⟨{ d with evaluated := g :: d.evaluated }, by simp [dispatch, hg, hd]⟩

theorem call_ok_of_ne_signup (env : Env σ τ) (h : HandlerId) (req : Request) (w : World σ)
    (hne : h ≠ HandlerId.signup) : ∃ res, h.call env req w = .ok res := by
  cases h with
  | signup => exact absurd rfl hne
  | static => exact ⟨_, rfl⟩
  | notFound => exact ⟨_, rfl⟩
  | home => simp only [HandlerId.call, home]; split_ifs <;> exact ⟨_, rfl⟩
  | dashboard => simp only [HandlerId.call, dashboard]; split_ifs <;> exact ⟨_, rfl⟩
  | login => simp only [HandlerId.call, login]; split_ifs <;> exact ⟨_, rfl⟩
  | logout => simp only [HandlerId.call, logout]; split_ifs <;> exact ⟨_, rfl⟩
  | about => simp only [HandlerId.call, about]; split_ifs <;> exact ⟨_, rfl⟩

/-- A dispatch completes when `signup` does not fault. -/
theorem dispatch_total_of_signup (env : Env σ τ) (req : Request) (w : World σ)
    (l : List HandlerId) (hs : ∀ e, signup env req w ≠ .error e) :
    ∃ d, dispatch env l req w = .ok d := by
  apply dispatch_total
  intro g _
  by_cases hg : g = HandlerId.signup
  · subst hg
    cases hsig : signup env req w with
    | error e => exact absurd hsig (hs e)
    | ok res => exact ⟨res, hsig⟩
  · exact call_ok_of_ne_signup env g req w hg

/-! ## The blocks of `signup` -/

theorem signupName_some (n : String) (f : Form) :
    signupName (some n) f = .ok
      (if n.utf8ByteSize < 5 ∨ n.utf8ByteSize > 50 then
        invalid f "nameError" "Your name must be between 5 and 50 characters long."
      else { f with template := templateSet f.template "formName" n }) := by
  simp only [signupName, strlen, bind, Except.bind]
  split_ifs <;> rfl

theorem signupEmail_some (env : Env σ τ) (e : String) (f : Form) (db : σ) :
    signupEmail env (some e) f db = .ok
      (if '@' ∈ e.data then
        if e.utf8ByteSize < 3 ∨ e.utf8ByteSize > 50 then
          (invalid f "emailError" "Your email must be between 3 and 50 characters long.", db)
        else if (checkEmail env db (some e)).1 = false then
          (invalid f "emailError" "This email is taken.", (checkEmail env db (some e)).2)
        else
          ({ f with template := templateSet f.template "formEmail" e },
            (checkEmail env db (some e)).2)
      else (invalid f "emailError" "Invalid email.", db)) := by
  simp only [signupEmail, strchr, strlen, bind, Except.bind]
  by_cases h : '@' ∈ e.data
  · simp only [h, decide_True, Bool.true_eq_false, if_false, if_true]
    split_ifs <;> rfl
  · simp [h, pure, Except.pure]

theorem signupUsername_some (env : Env σ τ) (u : String) (f : Form) (db : σ) :
    signupUsername env (some u) f db = .ok
      (if u.utf8ByteSize < 3 ∨ u.utf8ByteSize > 50 then
        (invalid f "usernameError"
          "Your username must be between 3 and 50 characters long.", db)
      else if (checkUsername env db (some u)).1 = false then
        (invalid f "usernameError" "This username is taken.", (checkUsername env db (some u)).2)
      else
        ({ f with template := templateSet f.template "formUsername" u },
          (checkUsername env db (some u)).2)) := by
  simp only [signupUsername, strlen, bind, Except.bind]
  split_ifs <;> rfl

theorem signupPassword_some (p : String) (f : Form) :
    signupPassword (some p) f = .ok
      (if p.utf8ByteSize < 8 then
        invalid f "passwordError" "Your password must be at least 8 characters long!"
      else f) := by
  simp only [signupPassword, strlen, bind, Except.bind]
  split_ifs <;> rfl

theorem signupConfirm_some (p c : String) (f : Form) :
    signupConfirm (some p) (some c) f = .ok
      (if p = c then f
      else invalid f "confirmPasswordError" "The two passwords must be the same.") := by
  simp only [signupConfirm, strcmp, bind, Except.bind]
  by_cases h : p = c
  · simp [h, pure, Except.pure]
  · simp only [h, if_false]
    split_ifs <;> simp_all [pure, Except.pure]

/-- The responses and worlds `signup` ends with once the five blocks have run. -/
theorem signup_post (env : Env σ τ) (req : Request) (w : World σ) (f1 f4 f5 : Form)
    (fe fu : Form × σ)
    (hroute : env.exactRoute req "/signup/" = true) (hpost : req.method = Method.POST)
    (h1 : signupName (kvFindList req.postBody "name")
      ⟨⟨"templates/signup.html", [("subtitle", "Sign Up")]⟩, true⟩ = .ok f1)
    (h2 : signupEmail env (kvFindList req.postBody "email") f1 w.db = .ok fe)
    (h3 : signupUsername env (kvFindList req.postBody "username") fe.1 fe.2 = .ok fu)
    (h4 : signupPassword (kvFindList req.postBody "password") fu.1 = .ok f4)
    (h5 : signupConfirm (kvFindList req.postBody "password")
      (kvFindList req.postBody "confirm-password") f4 = .ok f5) :
    signup env req w = .ok
      (if f5.valid = true then
        if (createAccount env fu.2 (kvFindList req.postBody "name")
            (kvFindList req.postBody "email") (kvFindList req.postBody "username")
            (kvFindList req.postBody "password")).1 = true then
          (some ⟨Status.FOUND, [HeaderLine.header "Location" "/login/"], none⟩,
            ⟨(createAccount env fu.2 (kvFindList req.postBody "name")
                (kvFindList req.postBody "email") (kvFindList req.postBody "username")
                (kvFindList req.postBody "password")).2,
              w.log ++ [Event.createAccount (kvFindList req.postBody "name")
                (kvFindList req.postBody "email") (kvFindList req.postBody "username")
                (kvFindList req.postBody "password") true, Event.templateDel f5.template]⟩)
        else
          (some ⟨Status.OK, [], some (env.templateRender (templateSet f5.template "nameError"
              "Unexpected error. Please try again later."))⟩,
            ⟨(createAccount env fu.2 (kvFindList req.postBody "name")
                (kvFindList req.postBody "email") (kvFindList req.postBody "username")
                (kvFindList req.postBody "password")).2,
              w.log ++ [Event.createAccount (kvFindList req.postBody "name")
                (kvFindList req.postBody "email") (kvFindList req.postBody "username")
                (kvFindList req.postBody "password") false,
                Event.templateRender (templateSet f5.template "nameError"
                  "Unexpected error. Please try again later."),
                Event.templateDel (templateSet f5.template "nameError"
                  "Unexpected error. Please try again later.")]⟩)
      else
        (some ⟨Status.OK, [], some (env.templateRender f5.template)⟩,
          ⟨fu.2, w.log ++ [Event.templateRender f5.template, Event.templateDel f5.template]⟩)) := by
  have h1' : signupName (kvFindList req.postBody "name")
      ⟨templateSet (templateNew "templates/signup.html") "subtitle" "Sign Up", true⟩ = .ok f1 := h1
  simp only [signup, hroute, hpost, h1', h2, h3, h4, h5, bind, Except.bind, pure, Except.pure,
    Bool.true_eq_false, if_false, if_true]
  split_ifs with hv hc
  · simp [hc, World.emit, responseSetStatus, responseAddHeader, responseNew]
  · simp at hc
    simp [hc, World.emit, renderAndReturn, responseSetStatus, responseSetBody, responseNew,
      invalid]
  · simp [World.emit, renderAndReturn, responseSetStatus, responseSetBody, responseNew]

/-! ## What a block of `signup` may bind -/

theorem Form.Step.refl (A : String × String → Prop) (f : Form) : Form.Step A f f :=
  ⟨rfl, id, fun _ h => h, fun _ h => Or.inl h⟩

theorem Form.Step.invalid (A : String × String → Prop) (f : Form) (k v : String)
    (h : A (k, v)) : Form.Step A f (invalid f k v) := by
  refine ⟨rfl, ?_, ?_, ?_⟩
  · intro hv; simp [Facebooc.invalid] at hv
  · intro b hb; simp [Facebooc.invalid, templateSet, hb]
  · intro b hb
    simp only [Facebooc.invalid, templateSet, List.mem_append, List.mem_singleton] at hb
    rcases hb with hb | hb
    · exact Or.inl hb
    · exact Or.inr (hb ▸ h)

theorem Form.Step.set (A : String × String → Prop) (f : Form) (k v : String)
    (h : A (k, v)) : Form.Step A f { f with template := templateSet f.template k v } := by
  refine ⟨rfl, id, ?_, ?_⟩
  · intro b hb; simp [templateSet, hb]
  · intro b hb
    simp only [templateSet, List.mem_append, List.mem_singleton] at hb
    rcases hb with hb | hb
    · exact Or.inl hb
    · exact Or.inr (hb ▸ h)

theorem Form.Step.trans (A : String × String → Prop) (f f1 f2 : Form)
    (h1 : Form.Step A f f1) (h2 : Form.Step A f1 f2) : Form.Step A f f2 := by
  obtain ⟨p1, v1, m1, a1⟩ := h1
  obtain ⟨p2, v2, m2, a2⟩ := h2
  refine ⟨p2.trans p1, fun h => v1 (v2 h), fun b hb => m2 b (m1 b hb), ?_⟩
  intro b hb
  rcases a2 b hb with h | h
  · exact a1 b h
  · exact Or.inr h

theorem signupName_step (name email username : Option String) (f : Form) :
    ∃ f1, signupName name f = .ok f1 ∧ Form.Step (Echoes name email username) f f1 := by
  cases name with
  | none =>
    exact ⟨_, rfl, Form.Step.invalid _ f _ _ (Or.inl (by decide))⟩
  | some n =>
    refine ⟨_, signupName_some n f, ?_⟩
    split_ifs
    · exact Form.Step.invalid _ f _ _ (Or.inl (by decide))
    · exact Form.Step.set _ f _ _ (Or.inr (Or.inl ⟨rfl, rfl⟩))

theorem signupEmail_step (env : Env σ τ) (name email username : Option String) (f : Form)
    (db : σ) :
    ∃ fe, signupEmail env email f db = .ok fe ∧ Form.Step (Echoes name email username) f fe.1 := by
  cases email with
  | none =>
    exact ⟨_, rfl, Form.Step.invalid _ f _ _ (Or.inl (by decide))⟩
  | some e =>
    refine ⟨_, signupEmail_some env e f db, ?_⟩
    split_ifs
    · exact Form.Step.invalid _ f _ _ (Or.inl (by decide))
    · exact Form.Step.invalid _ f _ _ (Or.inl (by decide))
    · exact Form.Step.set _ f _ _ (Or.inr (Or.inr (Or.inl ⟨rfl, rfl⟩)))
    · exact Form.Step.invalid _ f _ _ (Or.inl (by decide))

theorem signupUsername_step (env : Env σ τ) (name email username : Option String) (f : Form)
    (db : σ) :
    ∃ fu, signupUsername env username f db = .ok fu ∧
      Form.Step (Echoes name email username) f fu.1 := by
  cases username with
  | none =>
    exact ⟨_, rfl, Form.Step.invalid _ f _ _ (Or.inl (by decide))⟩
  | some u =>
    refine ⟨_, signupUsername_some env u f db, ?_⟩
    split_ifs
    · exact Form.Step.invalid _ f _ _ (Or.inl (by decide))
    · exact Form.Step.invalid _ f _ _ (Or.inl (by decide))
    · exact Form.Step.set _ f _ _ (Or.inr (Or.inr (Or.inr ⟨rfl, rfl⟩)))

theorem signupPassword_step (name email username password : Option String) (f : Form) :
    ∃ f4, signupPassword password f = .ok f4 ∧ Form.Step (Echoes name email username) f f4 := by
  cases password with
  | none =>
    exact ⟨_, rfl, Form.Step.invalid _ f _ _ (Or.inl (by decide))⟩
  | some p =>
    refine ⟨_, signupPassword_some p f, ?_⟩
    split_ifs
    · exact Form.Step.invalid _ f _ _ (Or.inl (by decide))
    · exact Form.Step.refl _ f

theorem signupConfirm_step (name email username password confirmPassword : Option String)
    (f : Form) (h : confirmPassword ≠ none → password ≠ none) :
    ∃ f5, signupConfirm password confirmPassword f = .ok f5 ∧
      Form.Step (Echoes name email username) f f5 := by
  cases confirmPassword with
  | none =>
    exact ⟨_, rfl, Form.Step.invalid _ f _ _ (Or.inl (by decide))⟩
  | some c =>
    cases password with
    | none => exact absurd rfl (h (by simp))
    | some p =>
      refine ⟨_, signupConfirm_some p c f, ?_⟩
      split_ifs
      · exact Form.Step.refl _ f
      · exact Form.Step.invalid _ f _ _ (Or.inl (by decide))

/-! ## Registration and dispatch (C1, C2, C9) -/

theorem foldl_serverAddHandler (regs : List HandlerId) :
    ∀ server : Server, (regs.foldl serverAddHandler server).handlers
      = regs.reverse ++ server.handlers := by
  induction regs with
  | nil => intro server; simp
  | cons h rest ih =>
    intro server
    simp [List.foldl, ih, serverAddHandler]

/-- C1: the dispatch list `main` builds is, in dispatch order, home, dashboard, login,
logout, signup, about, static, notFound, the reverse of the registration order
(registering at the front reverses any registration sequence); and for every
environment, request and world, when the list splits as `pre ++ h :: post`, every
handler of `pre` returns null and `h` returns the response `r`, dispatch returns `r`,
claimed by `h`, having evaluated exactly `pre ++ [h]` and no handler of `post`. -/
theorem C1_dispatch_first_claimant :
    mainServer.handlers = [HandlerId.home, HandlerId.dashboard, HandlerId.login,
        HandlerId.logout, HandlerId.signup, HandlerId.about, HandlerId.static,
        HandlerId.notFound]
    ∧ mainServer.handlers = List.reverse [HandlerId.notFound, HandlerId.static,
        HandlerId.about, HandlerId.signup, HandlerId.logout, HandlerId.login,
        HandlerId.dashboard, HandlerId.home]
    ∧ (∀ (regs : List HandlerId) (port : Nat),
        (regs.foldl serverAddHandler (serverNew port)).handlers = regs.reverse)
    ∧ ∀ (σ τ : Type) (env : Env σ τ) (req : Request) (w w2 : World σ)
        (pre post : List HandlerId) (h : HandlerId) (r : Response),
        mainServer.handlers = pre ++ h :: post →
        (∀ g ∈ pre, ∃ w1, g.call env req w = .ok (none, w1)) →
        h.call env req w = .ok (some r, w2) →
        dispatch env mainServer.handlers req w = .ok ⟨r, some h, pre ++ [h], w2⟩ := by
  refine ⟨rfl, rfl, ?_, ?_⟩
  · intro regs port
    simpa [serverNew] using foldl_serverAddHandler regs (serverNew port)
  · intro σ τ env req w w2 pre post h r hsplit hpre hh
    rw [hsplit]
    exact dispatch_first env req h post r w w2 pre hpre hh

/-- C1 at a concrete input: GET /login/ is declined by home and dashboard and claimed
by login; logout and the handlers after it are not evaluated. -/
theorem C1_dispatch_first_claimant_witness :
    dispatch pathEnv mainServer.handlers (mkRequest Method.GET "/login/" []) world0
      = .ok ⟨⟨Status.OK, [], some "templates/login.html:subtitle"⟩, some HandlerId.login,
          [HandlerId.home, HandlerId.dashboard] ++ [HandlerId.login],
          ⟨0, [Event.templateRender ⟨"templates/login.html", [("subtitle", "Login")]⟩,
               Event.templateDel ⟨"templates/login.html", [("subtitle", "Login")]⟩]⟩⟩ :=
  C1_dispatch_first_claimant.2.2.2 Nat (List (Option String)) pathEnv
    (mkRequest Method.GET "/login/" []) world0 _ [HandlerId.home, HandlerId.dashboard]
    [HandlerId.logout, HandlerId.signup, HandlerId.about, HandlerId.static, HandlerId.notFound]
    HandlerId.login _ rfl
    (by
      intro g hg
      simp only [List.mem_cons, List.mem_singleton, List.not_mem_nil, or_false] at hg
      rcases hg with rfl | rfl <;> exact ⟨world0, rfl⟩)
    rfl

/-- C2: the dispatch list of `main` is not empty, its last element is notFound, and
notFound returns a 404 response for every request, so that a dispatch that completes
is never the routing-exhausted 500; but on a POST to /signup/ with a confirm-password
field and no password field the dispatch does not complete: signup hands a null
password to strcmp and no Response is produced. -/
theorem C2_dispatch_faults_in_signup :
    mainServer.handlers ≠ []
    ∧ mainServer.handlers.getLast? = some HandlerId.notFound
    ∧ (∀ (σ τ : Type) (env : Env σ τ) (req : Request) (w : World σ),
        ∃ r w1, notFound env req w = .ok (some r, w1) ∧ r.status = Status.NOT_FOUND ∧
          r.status.code = 404)
    ∧ (∀ (σ τ : Type) (env : Env σ τ) (req : Request) (w : World σ) (d : Dispatched σ),
        dispatch env mainServer.handlers req w = .ok d → d.claimedBy ≠ none)
    ∧ dispatch pathEnv mainServer.handlers confirmOnlyRequest world0
        = .error (Fault.nullArg LibcFn.strcmp) := by
  refine ⟨by decide, rfl, ?_, ?_, rfl⟩
  · intro σ τ env req w
    exact ⟨_, _, notFound_eq env req w, rfl, rfl⟩
  · intro σ τ env req w d hd
    obtain ⟨h, hc, _, _⟩ := dispatch_main_claimed env req w d hd
    simp [hc]

theorem home_of_route (env : Env σ τ) (req : Request) (w : World σ)
    (h : env.exactRoute req "/" = true) :
    ∃ r w1, home env req w = .ok (some r, w1) := by
  simp [home, h, renderAndReturn]

theorem dashboard_of_not_route (env : Env σ τ) (req : Request) (w : World σ)
    (h : env.exactRoute req "/" = false) :
    dashboard env req w = .ok (none, w) := by
  simp [dashboard, h]

/-- C9: dashboard is dead in the dispatch chain of `main`: home stands before dashboard
in the list, for every request either home claims it or dashboard returns null, and no
completed dispatch is claimed by dashboard. -/
theorem C9_dashboard_dead :
    (∃ rest, mainServer.handlers = HandlerId.home :: HandlerId.dashboard :: rest)
    ∧ (∀ (σ τ : Type) (env : Env σ τ) (req : Request) (w : World σ),
        (∃ r w1, home env req w = .ok (some r, w1)) ∨ dashboard env req w = .ok (none, w))
    ∧ (∀ (σ τ : Type) (env : Env σ τ) (req : Request) (w : World σ) (d : Dispatched σ),
        dispatch env mainServer.handlers req w = .ok d →
          d.claimedBy ≠ some HandlerId.dashboard) := by
  refine ⟨⟨_, rfl⟩, ?_, ?_⟩
  · intro σ τ env req w
    by_cases h : env.exactRoute req "/" = true
    · exact Or.inl (home_of_route env req w h)
    · exact Or.inr (dashboard_of_not_route env req w (by simpa using h))
  · intro σ τ env req w d hd hc
    have hl : mainServer.handlers = [HandlerId.home, HandlerId.dashboard, HandlerId.login,
        HandlerId.logout, HandlerId.signup, HandlerId.about, HandlerId.static,
        HandlerId.notFound] := rfl
    rw [hl] at hd
    by_cases h : env.exactRoute req "/" = true
    · obtain ⟨r, w1, hr⟩ := home_of_route env req w h
      simp only [dispatch, HandlerId.call, hr, Except.ok.injEq] at hd
      subst hd
      simp at hc
    · have h0 : env.exactRoute req "/" = false := by simpa using h
      have hh : home env req w = .ok (none, w) := by simp [home, h0]
      have hd0 := dashboard_of_not_route env req w h0
      rcases dispatch_ok_cases env req w _ d hd with
        ⟨pre, g, post, _, _, hg, hcg, _⟩ | ⟨_, hcn, _, _⟩
      · rw [hcg] at hc
        simp only [Option.some.injEq] at hc
        subst hc
        simp [HandlerId.call, hd0] at hg
      · simp [hcn] at hc

/-- C9 at a concrete input: GET / is claimed by home, and dashboard is not evaluated. -/
theorem C9_dashboard_dead_witness :
    ∃ d, dispatch pathEnv mainServer.handlers (mkRequest Method.GET "/" []) world0 = .ok d ∧
      d.claimedBy = some HandlerId.home ∧ d.evaluated = [HandlerId.home] ∧
      d.claimedBy ≠ some HandlerId.dashboard :=
  ⟨_, rfl, rfl, rfl,
    C9_dashboard_dead.2.2 Nat (List (Option String)) pathEnv (mkRequest Method.GET "/" [])
      world0 _ rfl⟩

/-! ## The signal handler (C3) -/

theorem initDB_globals (boot : Boot σ) (g g1 : Globals σ) (h : initDB boot g = .ok g1) :
    g1.server = g.server ∧ ∃ db, g1.DB = some db := by
  unfold initDB at h
  cases ho : boot.sqlite3_open "db.sqlite3" with
  | none => simp [ho] at h
  | some db0 =>
    simp only [ho, bind, Except.bind] at h
    split at h
    · simp at h
    · split at h
      · simp at h
      · split at h
        · simp at h
        · split at h
          · simp at h
          · simp only [pure, Except.pure, Except.ok.injEq] at h
            subst h
            exact ⟨rfl, _, rfl⟩

/-- When `main` reaches `serverServe`, the file-scope `server` is still null, the
file-scope `DB` is open, and the server being served is the local one. -/
theorem main_serving (boot : Boot σ) (g : Globals σ) (server : Server)
    (h : main boot = Startup.serving g server) :
    g.server = none ∧ (∃ db, g.DB = some db) ∧ server = mainServer := by
  unfold main at h
  split_ifs at h
  cases hi : initDB boot ⟨none, none⟩ with
  | error code => simp [hi] at h
  | ok g1 =>
    simp only [hi, Startup.serving.injEq] at h
    obtain ⟨hg, hs⟩ := h
    subst hg hs
    obtain ⟨h1, h2⟩ := initDB_globals boot _ _ hi
    exact ⟨h1, h2, rfl⟩

/-- C3: after a start-up in which every call succeeds, `main` serves its local server
while the file-scope `server` that `sig` reads is still null: on SIGINT (2) and on
SIGTERM (15) `sig` closes the database, prints and exits with status 0, and does not
call serverDel; and this is so after every start-up that reaches `serverServe`. -/
theorem C3_sig_skips_serverDel :
    main okBoot = Startup.serving ⟨none, some 4⟩ mainServer
    ∧ sig (⟨none, some 4⟩ : Globals Nat) 2
        = [Action.sqlite3_close 4, Action.print 2, Action.exit 0]
    ∧ sig (⟨none, some 4⟩ : Globals Nat) 15
        = [Action.sqlite3_close 4, Action.print 15, Action.exit 0]
    ∧ (∀ (σ : Type) (boot : Boot σ) (g : Globals σ) (server : Server) (signum : Int),
        main boot = Startup.serving g server →
          (∀ s, Action.serverDel s ∉ sig g signum) ∧
          ∃ db, sig g signum = [Action.sqlite3_close db, Action.print signum, Action.exit 0]) := by
  refine ⟨rfl, rfl, rfl, ?_⟩
  intro σ boot g server signum h
  obtain ⟨hs, ⟨db, hdb⟩, _⟩ := main_serving boot g server h
  refine ⟨?_, db, ?_⟩
  · intro s
    simp [sig, hs, hdb]
  · simp [sig, hs, hdb]

/-! ## Null fields in `signup` (C4) -/

/-- On a POST that `signup` claims, with a confirm-password field and no password
field, `signup` hands the null password to strcmp. -/
theorem signup_null_password (env : Env σ τ) (req : Request) (w : World σ) (c : String)
    (hroute : env.exactRoute req "/signup/" = true) (hpost : req.method = Method.POST)
    (hp : kvFindList req.postBody "password" = none)
    (hc : kvFindList req.postBody "confirm-password" = some c) :
    signup env req w = .error (Fault.nullArg LibcFn.strcmp) := by
  obtain ⟨f1, h1, _⟩ := signupName_step (kvFindList req.postBody "name")
    (kvFindList req.postBody "email") (kvFindList req.postBody "username")
    ⟨templateSet (templateNew "templates/signup.html") "subtitle" "Sign Up", true⟩
  obtain ⟨fe, h2, _⟩ := signupEmail_step env (kvFindList req.postBody "name")
    (kvFindList req.postBody "email") (kvFindList req.postBody "username") f1 w.db
  obtain ⟨fu, h3, _⟩ := signupUsername_step env (kvFindList req.postBody "name")
    (kvFindList req.postBody "email") (kvFindList req.postBody "username") fe.1 fe.2
  obtain ⟨f4, h4, _⟩ := signupPassword_step (kvFindList req.postBody "name")
    (kvFindList req.postBody "email") (kvFindList req.postBody "username")
    (kvFindList req.postBody "password") fu.1
  have h5 : signupConfirm (kvFindList req.postBody "password")
      (kvFindList req.postBody "confirm-password") f4 = .error (Fault.nullArg LibcFn.strcmp) := by
    rw [hp, hc]; rfl
  simp only [signup, hroute, hpost, h1, h2, h3, h4, h5, bind, Except.bind,
    Bool.true_eq_false, if_false, if_true]

/-- Apart from that case `signup` returns a Response on every request it claims. -/
theorem signup_returns (env : Env σ τ) (req : Request) (w : World σ)
    (hroute : env.exactRoute req "/signup/" = true)
    (hsafe : req.method = Method.POST → kvFindList req.postBody "confirm-password" ≠ none →
      kvFindList req.postBody "password" ≠ none) :
    ∃ r w1, signup env req w = .ok (some r, w1) := by
  by_cases hpost : req.method = Method.POST
  · obtain ⟨f1, h1, _⟩ := signupName_step (kvFindList req.postBody "name")
      (kvFindList req.postBody "email") (kvFindList req.postBody "username")
      ⟨⟨"templates/signup.html", [("subtitle", "Sign Up")]⟩, true⟩
    obtain ⟨fe, h2, _⟩ := signupEmail_step env (kvFindList req.postBody "name")
      (kvFindList req.postBody "email") (kvFindList req.postBody "username") f1 w.db
    obtain ⟨fu, h3, _⟩ := signupUsername_step env (kvFindList req.postBody "name")
      (kvFindList req.postBody "email") (kvFindList req.postBody "username") fe.1 fe.2
    obtain ⟨f4, h4, _⟩ := signupPassword_step (kvFindList req.postBody "name")
      (kvFindList req.postBody "email") (kvFindList req.postBody "username")
      (kvFindList req.postBody "password") fu.1
    obtain ⟨f5, h5, _⟩ := signupConfirm_step (kvFindList req.postBody "name")
      (kvFindList req.postBody "email") (kvFindList req.postBody "username")
      (kvFindList req.postBody "password") (kvFindList req.postBody "confirm-password") f4
      (hsafe hpost)
    rw [signup_post env req w f1 f4 f5 fe fu hroute hpost h1 h2 h3 h4 h5]
    split_ifs <;> exact ⟨_, _, rfl⟩
  · simp [signup, hroute, hpost, renderAndReturn]

/-- C4: the form of `confirmOnlyRequest` has a confirm-password field and no password
field; on it `signup` returns no Response: the null password reaches strcmp.  The same
happens in every environment on every such POST that `signup` claims. -/
theorem C4_signup_null_strcmp :
    kvFindList confirmOnlyRequest.postBody "password" = none
    ∧ kvFindList confirmOnlyRequest.postBody "confirm-password" = some "secret123"
    ∧ signup pathEnv confirmOnlyRequest world0 = .error (Fault.nullArg LibcFn.strcmp)
    ∧ (∀ (σ τ : Type) (env : Env σ τ) (req : Request) (w : World σ) (c : String),
        env.exactRoute req "/signup/" = true → req.method = Method.POST →
        kvFindList req.postBody "password" = none →
        kvFindList req.postBody "confirm-password" = some c →
        signup env req w = .error (Fault.nullArg LibcFn.strcmp)) := by
  refine ⟨rfl, rfl, rfl, ?_⟩
  intro σ τ env req w c hroute hpost hp hc
  exact signup_null_password env req w c hroute hpost hp hc

/-! ## logout (C6) -/

/-- C6: a request that logout claims gets status 302 Found, the header list
[Set-Cookie of (sid, empty value, no domain, no path, max-age -1), Location: /] in
that order, hence exactly one cookie, added before the Location header, and no body;
the cookie's wire form is `sid=; Max-Age=-1`; the world is unchanged and the request
passed EXACT_ROUTE for /logout/. -/
theorem C6_logout_response (env : Env σ τ) (req : Request) (w w1 : World σ) (r : Response)
    (hclaim : logout env req w = .ok (some r, w1)) :
    r.status = Status.FOUND ∧ r.status.code = 302
    ∧ r.headers = [HeaderLine.setCookie ⟨"sid", "", none, none, -1⟩,
        HeaderLine.header "Location" "/"]
    ∧ r.cookies = [⟨"sid", "", none, none, -1⟩]
    ∧ r.header? "Location" = some "/"
    ∧ r.body = none
    ∧ (⟨"sid", "", none, none, -1⟩ : Cookie).wire = "sid=; Max-Age=-1"
    ∧ w1 = w ∧ env.exactRoute req "/logout/" = true := by
  unfold logout at hclaim
  by_cases h : env.exactRoute req "/logout/" = false
  · simp [h] at hclaim
  · simp only [h, if_false, Except.ok.injEq, Prod.mk.injEq, Option.some.injEq] at hclaim
    obtain ⟨rfl, rfl⟩ := hclaim
    refine ⟨rfl, rfl, rfl, rfl, rfl, rfl, by decide, rfl, by simpa using h⟩

/-- C6 at a concrete input: GET /logout/. -/
theorem C6_logout_response_witness :
    logout pathEnv (mkRequest Method.GET "/logout/" []) world0
        = .ok (some ⟨Status.FOUND, [HeaderLine.setCookie ⟨"sid", "", none, none, -1⟩,
            HeaderLine.header "Location" "/"], none⟩, world0)
    ∧ (⟨Status.FOUND, [HeaderLine.setCookie ⟨"sid", "", none, none, -1⟩,
            HeaderLine.header "Location" "/"], none⟩ : Response).cookies
        = [⟨"sid", "", none, none, -1⟩] :=
  ⟨rfl, (C6_logout_response pathEnv (mkRequest Method.GET "/logout/" []) world0 world0
      ⟨Status.FOUND, [HeaderLine.setCookie ⟨"sid", "", none, none, -1⟩,
        HeaderLine.header "Location" "/"], none⟩ rfl).2.2.2.1⟩

/-! ## Route checks (C7) -/

/-- C7 as stated fails: with EXACT_ROUTE comparing paths, login claims GET /login/ and
POST /login/ alike, and logout claims DELETE /logout/; so there is no method such that
login returns null for every request with another method. -/
theorem C7_login_claims_every_method :
    (∃ r w1, login pathEnv (mkRequest Method.GET "/login/" []) world0 = .ok (some r, w1))
    ∧ (∃ r w1, login pathEnv (mkRequest Method.POST "/login/" []) world0 = .ok (some r, w1))
    ∧ (∃ r w1, logout pathEnv (mkRequest Method.DELETE "/logout/" []) world0 = .ok (some r, w1))
    ∧ ¬ ∃ m : Method, ∀ req : Request, (req.method ≠ m ∨ req.path ≠ "/login/") →
        login pathEnv req world0 = .ok (none, world0) := by
  refine ⟨⟨_, _, rfl⟩, ⟨_, _, rfl⟩, ⟨_, _, rfl⟩, ?_⟩
  rintro ⟨m, hm⟩
  by_cases h : m = Method.GET
  · have := hm (mkRequest Method.POST "/login/" []) (Or.inl (by simp [mkRequest, h]))
    exact absurd this (by simp [login, pathEnv, mkRequest, renderAndReturn])
  · have := hm (mkRequest Method.GET "/login/" [])
      (Or.inl (by simpa [mkRequest] using fun hh => h hh.symm))
    exact absurd this (by simp [login, pathEnv, mkRequest, renderAndReturn])

/-- C7, amended: each routed handler tests EXACT_ROUTE on the request and its own path
literal (/, /, /login/, /logout/, /signup/, /about/) and nothing else before it goes
on: when the test fails it returns null and leaves the world as it was; when the test
passes it builds a Response, whatever the method (signup: it never returns null, and
it builds a Response unless the form has a confirm-password and no password). -/
theorem C7_handlers_test_route_only :
    ∀ (σ τ : Type) (env : Env σ τ) (req : Request) (w : World σ),
      ((env.exactRoute req "/" = false → home env req w = .ok (none, w)) ∧
        (env.exactRoute req "/" = true → ∃ r w1, home env req w = .ok (some r, w1)))
      ∧ ((env.exactRoute req "/" = false → dashboard env req w = .ok (none, w)) ∧
        (env.exactRoute req "/" = true → ∃ r w1, dashboard env req w = .ok (some r, w1)))
      ∧ ((env.exactRoute req "/login/" = false → login env req w = .ok (none, w)) ∧
        (env.exactRoute req "/login/" = true → ∃ r w1, login env req w = .ok (some r, w1)))
      ∧ ((env.exactRoute req "/logout/" = false → logout env req w = .ok (none, w)) ∧
        (env.exactRoute req "/logout/" = true → ∃ r w1, logout env req w = .ok (some r, w1)))
      ∧ ((env.exactRoute req "/about/" = false → about env req w = .ok (none, w)) ∧
        (env.exactRoute req "/about/" = true → ∃ r w1, about env req w = .ok (some r, w1)))
      ∧ ((env.exactRoute req "/signup/" = false → signup env req w = .ok (none, w)) ∧
        (env.exactRoute req "/signup/" = true → ∀ w1, signup env req w ≠ .ok (none, w1)) ∧
        (env.exactRoute req "/signup/" = true →
          (req.method = Method.POST → kvFindList req.postBody "confirm-password" ≠ none →
            kvFindList req.postBody "password" ≠ none) →
          ∃ r w1, signup env req w = .ok (some r, w1))) := by
  intro σ τ env req w
  refine ⟨⟨?_, ?_⟩, ⟨?_, ?_⟩, ⟨?_, ?_⟩, ⟨?_, ?_⟩, ⟨?_, ?_⟩, ⟨?_, ?_, ?_⟩⟩
  · intro h; simp [home, h]
  · intro h; simp [home, h, renderAndReturn]
  · intro h; simp [dashboard, h]
  · intro h; simp [dashboard, h, renderAndReturn]
  · intro h; simp [login, h]
  · intro h; simp [login, h, renderAndReturn]
  · intro h; simp [logout, h]
  · intro h; simp [logout, h]
  · intro h; simp [about, h]
  · intro h; simp [about, h, renderAndReturn]
  · intro h; exact signup_of_not_route env req w h
  · intro h w1; exact signup_not_null env req w w1 h
  · intro h hsafe; exact signup_returns env req w h hsafe

/-- C7 amended, at concrete inputs: PUT /about/ passes the path test and gets a
Response; GET /aboutx fails it and gets null. -/
theorem C7_handlers_test_route_only_witness :
    (∃ r w1, about pathEnv (mkRequest Method.PUT "/about/" []) world0 = .ok (some r, w1))
    ∧ about pathEnv (mkRequest Method.GET "/aboutx" []) world0 = .ok (none, world0) :=
  ⟨(C7_handlers_test_route_only Nat (List (Option String)) pathEnv
      (mkRequest Method.PUT "/about/" []) world0).2.2.2.2.1.2 rfl,
   (C7_handlers_test_route_only Nat (List (Option String)) pathEnv
      (mkRequest Method.GET "/aboutx" []) world0).2.2.2.2.1.1 rfl⟩

/-! ## Password too short (C5) -/

/-- C5: on a POST that signup claims, with a password field shorter than 8 chars,
whatever the other fields: signup returns status 200 with the rendered signup template
as body, that template has passwordError bound, and the calls made are the render and
the release of that template and no call of createAccount. -/
theorem C5_short_password (env : Env σ τ) (req : Request) (w : World σ) (p : String)
    (hroute : env.exactRoute req "/signup/" = true) (hpost : req.method = Method.POST)
    (hp : kvFindList req.postBody "password" = some p) (hshort : p.utf8ByteSize < 8) :
    ∃ t db,
      signup env req w = .ok (some ⟨Status.OK, [], some (env.templateRender t)⟩,
        ⟨db, w.log ++ [Event.templateRender t, Event.templateDel t]⟩)
      ∧ Status.OK.code = 200
      ∧ t.path = "templates/signup.html"
      ∧ ("passwordError", "Your password must be at least 8 characters long!") ∈ t.bindings
      ∧ ∀ ev ∈ [Event.templateRender t, Event.templateDel t], ev.isCreateAccount = false := by
  obtain ⟨f1, h1, s1⟩ := signupName_step (kvFindList req.postBody "name")
    (kvFindList req.postBody "email") (kvFindList req.postBody "username")
    ⟨⟨"templates/signup.html", [("subtitle", "Sign Up")]⟩, true⟩
  obtain ⟨fe, h2, s2⟩ := signupEmail_step env (kvFindList req.postBody "name")
    (kvFindList req.postBody "email") (kvFindList req.postBody "username") f1 w.db
  obtain ⟨fu, h3, s3⟩ := signupUsername_step env (kvFindList req.postBody "name")
    (kvFindList req.postBody "email") (kvFindList req.postBody "username") fe.1 fe.2
  have h4 : signupPassword (kvFindList req.postBody "password") fu.1 = .ok (invalid fu.1
      "passwordError" "Your password must be at least 8 characters long!") := by
    rw [hp, signupPassword_some, if_pos hshort]
  obtain ⟨f5, h5, s5⟩ := signupConfirm_step (kvFindList req.postBody "name")
    (kvFindList req.postBody "email") (kvFindList req.postBody "username")
    (kvFindList req.postBody "password") (kvFindList req.postBody "confirm-password")
    (invalid fu.1 "passwordError" "Your password must be at least 8 characters long!")
    (fun _ => by simp [hp])
  have hv : ¬ f5.valid = true := fun hv => by
    have := s5.2.1 hv
    simp [invalid] at this
  refine ⟨f5.template, fu.2, ?_, rfl, ?_, ?_, ?_⟩
  · rw [signup_post env req w f1 _ f5 fe fu hroute hpost h1 h2 h3 h4 h5, if_neg hv]
  · rw [s5.1]
    show fu.1.template.path = _
    rw [s3.1, s2.1, s1.1]
  · exact s5.2.2.1 _ (by simp [invalid, templateSet])
  · intro ev hev
    simp only [List.mem_cons, List.mem_singleton, List.not_mem_nil, or_false] at hev
    rcases hev with rfl | rfl <;> rfl

/-- C5 at a concrete input: a full form whose password has 5 chars. -/
theorem C5_short_password_witness :
    ∃ t db,
      signup pathEnv (mkRequest Method.POST "/signup/" [("name", "Alice Doe"),
          ("email", "a@b.c"), ("username", "alice"), ("password", "12345"),
          ("confirm-password", "12345")]) world0
        = .ok (some ⟨Status.OK, [], some (pathEnv.templateRender t)⟩,
            ⟨db, world0.log ++ [Event.templateRender t, Event.templateDel t]⟩)
      ∧ Status.OK.code = 200
      ∧ t.path = "templates/signup.html"
      ∧ ("passwordError", "Your password must be at least 8 characters long!") ∈ t.bindings
      ∧ ∀ ev ∈ [Event.templateRender t, Event.templateDel t], ev.isCreateAccount = false :=
  C5_short_password pathEnv _ world0 "12345" rfl rfl rfl (by decide)

/-! ## When `signup` creates the account (C8) -/

theorem signupName_valid (n : String) (f : Form) :
    ∃ f1, signupName (some n) f = .ok f1 ∧ f1.template.path = f.template.path ∧
      (f1.valid = true ↔ f.valid = true ∧ 5 ≤ n.utf8ByteSize ∧ n.utf8ByteSize ≤ 50) := by
  refine ⟨_, signupName_some n f, ?_, ?_⟩
  · split_ifs <;> rfl
  · split_ifs with h
    · simp only [invalid, Bool.false_eq_true, false_iff]
      omega
    · simp only [true_and, iff_self_and]
      omega

theorem signupEmail_valid (env : Env σ τ) (e : String) (f : Form) (db : σ) :
    ∃ fe, signupEmail env (some e) f db = .ok fe ∧ fe.1.template.path = f.template.path ∧
      (fe.1.valid = true ↔ f.valid = true ∧ '@' ∈ e.data ∧ 3 ≤ e.utf8ByteSize ∧
        e.utf8ByteSize ≤ 50 ∧ (checkEmail env db (some e)).1 = true) ∧
      (fe.1.valid = true → fe.2 = (checkEmail env db (some e)).2) := by
  refine ⟨_, signupEmail_some env e f db, ?_, ?_, ?_⟩
  · split_ifs <;> rfl
  · split_ifs with h1 h2 h3
    · simp only [invalid, Bool.false_eq_true, false_iff]; omega
    · simp [invalid, h3]
    · simp only [h1, true_and]
      have h3' : (checkEmail env db (some e)).1 = true := by simpa using h3
      simp only [h3', and_true, iff_self_and]
      omega
    · simp [invalid, h1]
  · split_ifs with h1 h2 h3 <;> simp [invalid]

theorem signupUsername_valid (env : Env σ τ) (u : String) (f : Form) (db : σ) :
    ∃ fu, signupUsername env (some u) f db = .ok fu ∧ fu.1.template.path = f.template.path ∧
      (fu.1.valid = true ↔ f.valid = true ∧ 3 ≤ u.utf8ByteSize ∧ u.utf8ByteSize ≤ 50 ∧
        (checkUsername env db (some u)).1 = true) ∧
      (fu.1.valid = true → fu.2 = (checkUsername env db (some u)).2) := by
  refine ⟨_, signupUsername_some env u f db, ?_, ?_, ?_⟩
  · split_ifs <;> rfl
  · split_ifs with h2 h3
    · simp only [invalid, Bool.false_eq_true, false_iff]; omega
    · simp [invalid, h3]
    · have h3' : (checkUsername env db (some u)).1 = true := by simpa using h3
      simp only [h3', and_true, iff_self_and]
      omega
  · split_ifs with h2 h3 <;> simp [invalid]

theorem signupPassword_valid (p : String) (f : Form) :
    ∃ f4, signupPassword (some p) f = .ok f4 ∧ f4.template.path = f.template.path ∧
      (f4.valid = true ↔ f.valid = true ∧ 8 ≤ p.utf8ByteSize) := by
  refine ⟨_, signupPassword_some p f, ?_, ?_⟩
  · split_ifs <;> rfl
  · split_ifs with h
    · simp only [invalid, Bool.false_eq_true, false_iff]; omega
    · simp only [iff_self_and]; omega

theorem signupConfirm_valid (p c : String) (f : Form) :
    ∃ f5, signupConfirm (some p) (some c) f = .ok f5 ∧ f5.template.path = f.template.path ∧
      (f5.valid = true ↔ f.valid = true ∧ c = p) := by
  refine ⟨_, signupConfirm_some p c f, ?_, ?_⟩
  · split_ifs <;> rfl
  · split_ifs with h
    · simp [h]
    · simp only [invalid, Bool.false_eq_true, false_iff]
      intro hh; exact h hh.2.symm

/-- C8: on a POST that signup claims with all five fields present, signup returns a
Response; createAccount is called exactly when the name has 5 to 50 chars, the email
contains an at sign, has 3 to 50 chars and checkEmail finds it free, the username has
3 to 50 chars and checkUsername finds it free, the password has at least 8 chars and
confirm-password equals it, and then with these four fields; the Response is 302 with
Location /login/ and no body exactly when createAccount was called and returned true;
otherwise it is 200 with the rendered signup template as body, with nameError bound
when createAccount returned false. -/
theorem C8_signup_creates_iff_valid (env : Env σ τ) (req : Request) (w : World σ)
    (n e u p c : String)
    (hroute : env.exactRoute req "/signup/" = true) (hpost : req.method = Method.POST)
    (hn : kvFindList req.postBody "name" = some n)
    (he : kvFindList req.postBody "email" = some e)
    (hu : kvFindList req.postBody "username" = some u)
    (hp : kvFindList req.postBody "password" = some p)
    (hc : kvFindList req.postBody "confirm-password" = some c) :
    ∃ r w1 new, signup env req w = .ok (some r, w1) ∧ w1.log = w.log ++ new
      ∧ ((∃ ev ∈ new, ev.isCreateAccount = true) ↔
          ((5 ≤ n.utf8ByteSize ∧ n.utf8ByteSize ≤ 50)
            ∧ ('@' ∈ e.data ∧ 3 ≤ e.utf8ByteSize ∧ e.utf8ByteSize ≤ 50
                ∧ (checkEmail env w.db (some e)).1 = true)
            ∧ (3 ≤ u.utf8ByteSize ∧ u.utf8ByteSize ≤ 50
                ∧ (checkUsername env (checkEmail env w.db (some e)).2 (some u)).1 = true)
            ∧ 8 ≤ p.utf8ByteSize ∧ c = p))
      ∧ (∀ ev ∈ new, ev.isCreateAccount = true →
          ev = Event.createAccount (some n) (some e) (some u) (some p)
            (createAccount env (checkUsername env (checkEmail env w.db (some e)).2 (some u)).2
              (some n) (some e) (some u) (some p)).1)
      ∧ (r = ⟨Status.FOUND, [HeaderLine.header "Location" "/login/"], none⟩ ↔
          Event.createAccount (some n) (some e) (some u) (some p) true ∈ new)
      ∧ (r ≠ ⟨Status.FOUND, [HeaderLine.header "Location" "/login/"], none⟩ →
          ∃ t, t.path = "templates/signup.html"
            ∧ r = ⟨Status.OK, [], some (env.templateRender t)⟩
            ∧ Event.templateRender t ∈ new
            ∧ (Event.createAccount (some n) (some e) (some u) (some p) false ∈ new →
                ("nameError", "Unexpected error. Please try again later.") ∈ t.bindings))
      ∧ Status.FOUND.code = 302 ∧ Status.OK.code = 200 := by
  obtain ⟨f1, h1, p1, v1⟩ := signupName_valid n
    ⟨⟨"templates/signup.html", [("subtitle", "Sign Up")]⟩, true⟩
  obtain ⟨fe, h2, p2, v2, d2⟩ := signupEmail_valid env e f1 w.db
  obtain ⟨fu, h3, p3, v3, d3⟩ := signupUsername_valid env u fe.1 fe.2
  obtain ⟨f4, h4, p4, v4⟩ := signupPassword_valid p fu.1
  obtain ⟨f5, h5, p5, v5⟩ := signupConfirm_valid p c f4
  have hpath : f5.template.path = "templates/signup.html" := by
    rw [p5, p4, p3, p2, p1]
  have hvalid : f5.valid = true ↔
      ((5 ≤ n.utf8ByteSize ∧ n.utf8ByteSize ≤ 50)
        ∧ ('@' ∈ e.data ∧ 3 ≤ e.utf8ByteSize ∧ e.utf8ByteSize ≤ 50
            ∧ (checkEmail env w.db (some e)).1 = true)
        ∧ (3 ≤ u.utf8ByteSize ∧ u.utf8ByteSize ≤ 50
            ∧ (checkUsername env (checkEmail env w.db (some e)).2 (some u)).1 = true)
        ∧ 8 ≤ p.utf8ByteSize ∧ c = p) := by
    rw [v5, v4, v3]
    constructor
    · rintro ⟨⟨⟨hfe, hu1, hu2, hu3⟩, hp8⟩, hcp⟩
      have hdb := d2 hfe
      rw [hdb] at hu3
      rw [v2, v1] at hfe
      exact ⟨⟨hfe.1.2.1, hfe.1.2.2⟩, hfe.2, ⟨hu1, hu2, hu3⟩, hp8, hcp⟩
    · rintro ⟨hn', he', ⟨hu1, hu2, hu3⟩, hp8, hcp⟩
      have hfe : fe.1.valid = true := by
        rw [v2, v1]; exact ⟨⟨rfl, hn'.1, hn'.2⟩, he'⟩
      rw [← d2 hfe] at hu3
      exact ⟨⟨⟨hfe, hu1, hu2, hu3⟩, hp8⟩, hcp⟩
  have hdb : f5.valid = true →
      fu.2 = (checkUsername env (checkEmail env w.db (some e)).2 (some u)).2 := by
    intro hv
    rw [v5, v4] at hv
    have hfu := hv.1.1
    have hfe := (v3.mp hfu).1
    rw [d3 hfu, d2 hfe]
  have hsig := signup_post env req w f1 f4 f5 fe fu hroute hpost (by rw [hn]; exact h1)
    (by rw [he]; exact h2) (by rw [hu]; exact h3) (by rw [hp]; exact h4)
    (by rw [hp, hc]; exact h5)
  rw [hn, he, hu, hp] at hsig
  by_cases hv : f5.valid = true
  · rw [if_pos hv, hdb hv] at hsig
    by_cases hcr : (createAccount env
        (checkUsername env (checkEmail env w.db (some e)).2 (some u)).2
        (some n) (some e) (some u) (some p)).1 = true
    · rw [if_pos hcr] at hsig
      refine ⟨_, _, _, hsig, rfl, ?_, ?_, ?_, ?_, rfl, rfl⟩
      · exact ⟨fun _ => hvalid.mp hv, fun _ => ⟨_, List.mem_cons_self _ _, rfl⟩⟩
      · intro ev hev hcreate
        simp only [List.mem_cons, List.mem_singleton, List.not_mem_nil, or_false] at hev
        rcases hev with rfl | rfl
        · rw [hcr]
        · simp [Event.isCreateAccount] at hcreate
      · simp
      · intro hne; exact absurd rfl hne
    · rw [if_neg hcr] at hsig
      have hcr' : (createAccount env
          (checkUsername env (checkEmail env w.db (some e)).2 (some u)).2
          (some n) (some e) (some u) (some p)).1 = false := by simpa using hcr
      refine ⟨_, _, _, hsig, rfl, ?_, ?_, ?_, ?_, rfl, rfl⟩
      · exact ⟨fun _ => hvalid.mp hv, fun _ => ⟨_, List.mem_cons_self _ _, rfl⟩⟩
      · intro ev hev hcreate
        simp only [List.mem_cons, List.mem_singleton, List.not_mem_nil, or_false] at hev
        rcases hev with rfl | rfl | rfl
        · rw [hcr']
        · simp [Event.isCreateAccount] at hcreate
        · simp [Event.isCreateAccount] at hcreate
      · simp
      · intro _
        refine ⟨_, ?_, rfl, by simp, ?_⟩
        · simpa [templateSet] using hpath
        · intro _; simp [templateSet]
  · rw [if_neg hv] at hsig
    refine ⟨_, _, _, hsig, rfl, ?_, ?_, ?_, ?_, rfl, rfl⟩
    · constructor
      · rintro ⟨ev, hev, hcreate⟩
        simp only [List.mem_cons, List.mem_singleton, List.not_mem_nil, or_false] at hev
        rcases hev with rfl | rfl <;> simp [Event.isCreateAccount] at hcreate
      · intro hcond; exact absurd (hvalid.mpr hcond) hv
    · intro ev hev hcreate
      simp only [List.mem_cons, List.mem_singleton, List.not_mem_nil, or_false] at hev
      rcases hev with rfl | rfl <;> simp [Event.isCreateAccount] at hcreate
    · simp
    · intro _
      exact ⟨_, hpath, rfl, by simp, by simp⟩

/-- C8 at a concrete input: a valid form; the account is created and the Response is
the redirect. -/
theorem C8_signup_creates_iff_valid_witness :
    ∃ r w1 new, signup pathEnv (signupForm "12345678") world0 = .ok (some r, w1)
      ∧ w1.log = world0.log ++ new
      ∧ ((∃ ev ∈ new, ev.isCreateAccount = true) ↔
          ((5 ≤ "Alice Doe".utf8ByteSize ∧ "Alice Doe".utf8ByteSize ≤ 50)
            ∧ ('@' ∈ "a@b.c".data ∧ 3 ≤ "a@b.c".utf8ByteSize ∧ "a@b.c".utf8ByteSize ≤ 50
                ∧ (checkEmail pathEnv world0.db (some "a@b.c")).1 = true)
            ∧ (3 ≤ "alice".utf8ByteSize ∧ "alice".utf8ByteSize ≤ 50
                ∧ (checkUsername pathEnv (checkEmail pathEnv world0.db (some "a@b.c")).2
                    (some "alice")).1 = true)
            ∧ 8 ≤ "12345678".utf8ByteSize ∧ "12345678" = "12345678")) := by
  obtain ⟨r, w1, new, h1, h2, h3, _⟩ := C8_signup_creates_iff_valid pathEnv
    (signupForm "12345678") world0 "Alice Doe" "a@b.c" "alice" "12345678" "12345678"
    rfl rfl rfl rfl rfl rfl rfl
  exact ⟨r, w1, new, h1, h2, h3⟩

/-! ## The password is not echoed (C10) -/

/-- Every template `signup` renders or releases holds only literal messages and the
submitted name, email and username. -/
theorem signup_templates_echo (env : Env σ τ) (req : Request) (w w1 : World σ)
    (r : Option Response) (h : signup env req w = .ok (r, w1)) :
    ∃ new, w1.log = w.log ++ new ∧ ∀ t ∈ templatesOf new, ∀ b ∈ t.bindings,
      Echoes (kvFindList req.postBody "name") (kvFindList req.postBody "email")
        (kvFindList req.postBody "username") b := by
  by_cases hroute : env.exactRoute req "/signup/" = true
  · by_cases hpost : req.method = Method.POST
    · obtain ⟨f1, h1, s1⟩ := signupName_step (kvFindList req.postBody "name")
        (kvFindList req.postBody "email") (kvFindList req.postBody "username")
        ⟨⟨"templates/signup.html", [("subtitle", "Sign Up")]⟩, true⟩
      obtain ⟨fe, h2, s2⟩ := signupEmail_step env (kvFindList req.postBody "name")
        (kvFindList req.postBody "email") (kvFindList req.postBody "username") f1 w.db
      obtain ⟨fu, h3, s3⟩ := signupUsername_step env (kvFindList req.postBody "name")
        (kvFindList req.postBody "email") (kvFindList req.postBody "username") fe.1 fe.2
      obtain ⟨f4, h4, s4⟩ := signupPassword_step (kvFindList req.postBody "name")
        (kvFindList req.postBody "email") (kvFindList req.postBody "username")
        (kvFindList req.postBody "password") fu.1
      have hsafe : kvFindList req.postBody "confirm-password" ≠ none →
          kvFindList req.postBody "password" ≠ none := by
        intro hcn hpn
        obtain ⟨c, hc⟩ := Option.ne_none_iff_exists'.mp hcn
        rw [signup_null_password env req w c hroute hpost hpn hc] at h
        simp at h
      obtain ⟨f5, h5, s5⟩ := signupConfirm_step (kvFindList req.postBody "name")
        (kvFindList req.postBody "email") (kvFindList req.postBody "username")
        (kvFindList req.postBody "password") (kvFindList req.postBody "confirm-password") f4
        hsafe
      have hs := Form.Step.trans _ _ _ _ (Form.Step.trans _ _ _ _ (Form.Step.trans _ _ _ _
        (Form.Step.trans _ _ _ _ s1 s2) s3) s4) s5
      have hall : ∀ b ∈ f5.template.bindings,
          Echoes (kvFindList req.postBody "name") (kvFindList req.postBody "email")
            (kvFindList req.postBody "username") b := by
        intro b hb
        rcases hs.2.2.2 b hb with h0 | h0
        · simp only [List.mem_singleton] at h0
          subst h0
          exact Or.inl (by decide)
        · exact h0
      have hall2 : ∀ b ∈ (templateSet f5.template "nameError"
          "Unexpected error. Please try again later.").bindings,
          Echoes (kvFindList req.postBody "name") (kvFindList req.postBody "email")
            (kvFindList req.postBody "username") b := by
        intro b hb
        simp only [templateSet, List.mem_append, List.mem_singleton] at hb
        rcases hb with hb | hb
        · exact hall b hb
        · subst hb; exact Or.inl (by decide)
      rw [signup_post env req w f1 f4 f5 fe fu hroute hpost h1 h2 h3 h4 h5] at h
      split_ifs at h
      · simp only [Except.ok.injEq, Prod.mk.injEq] at h
        obtain ⟨_, rfl⟩ := h
        refine ⟨_, rfl, ?_⟩
        intro t ht
        simp only [templatesOf, List.filterMap_cons, Event.template?, List.filterMap_nil,
          List.mem_singleton] at ht
        subst ht
        exact hall
      · simp only [Except.ok.injEq, Prod.mk.injEq] at h
        obtain ⟨_, rfl⟩ := h
        refine ⟨_, rfl, ?_⟩
        intro t ht
        simp only [templatesOf, List.filterMap_cons, Event.template?, List.filterMap_nil,
          List.mem_cons, List.mem_singleton, or_self, List.not_mem_nil, or_false] at ht
        subst ht
        exact hall2
      · simp only [Except.ok.injEq, Prod.mk.injEq] at h
        obtain ⟨_, rfl⟩ := h
        refine ⟨_, rfl, ?_⟩
        intro t ht
        simp only [templatesOf, List.filterMap_cons, Event.template?, List.filterMap_nil,
          List.mem_cons, List.mem_singleton, or_self, List.not_mem_nil, or_false] at ht
        subst ht
        exact hall
    · simp only [signup, hroute, hpost, Bool.true_eq_false, if_false, renderAndReturn,
        Except.ok.injEq, Prod.mk.injEq] at h
      obtain ⟨_, rfl⟩ := h
      refine ⟨[Event.templateRender
          (templateSet (templateNew "templates/signup.html") "subtitle" "Sign Up"),
        Event.templateDel
          (templateSet (templateNew "templates/signup.html") "subtitle" "Sign Up")],
        by simp [World.emit], ?_⟩
      intro t ht
      simp only [templatesOf, List.filterMap_cons, Event.template?, List.filterMap_nil,
        List.mem_cons, List.mem_singleton, or_self, List.not_mem_nil, or_false] at ht
      subst ht
      intro b hb
      simp only [templateSet, templateNew, List.nil_append, List.mem_singleton] at hb
      subst hb
      exact Or.inl (by decide)
  · have hr : env.exactRoute req "/signup/" = false := by simpa using hroute
    rw [signup_of_not_route env req w hr] at h
    simp only [Except.ok.injEq, Prod.mk.injEq] at h
    obtain ⟨_, rfl⟩ := h
    exact ⟨[], by simp, by simp [templatesOf]⟩

/-- Every template `login` renders holds only literal messages and the submitted
username. -/
theorem login_templates_echo (env : Env σ τ) (req : Request) (w w1 : World σ)
    (r : Option Response) (h : login env req w = .ok (r, w1)) :
    ∃ new, w1.log = w.log ++ new ∧ ∀ t ∈ templatesOf new, ∀ b ∈ t.bindings,
      Echoes none none (kvFindList req.postBody "username") b := by
  unfold login at h
  by_cases hroute : env.exactRoute req "/login/" = false
  · simp only [hroute, if_true, Except.ok.injEq, Prod.mk.injEq] at h
    obtain ⟨_, rfl⟩ := h
    exact ⟨[], by simp, by simp [templatesOf]⟩
  · simp only [hroute, if_false, renderAndReturn, Except.ok.injEq, Prod.mk.injEq] at h
    obtain ⟨_, rfl⟩ := h
    refine ⟨_, List.append_assoc w.log [_] [_], ?_⟩
    intro t ht
    simp only [templatesOf, List.singleton_append, List.filterMap_cons, Event.template?,
      List.filterMap_nil, List.mem_cons, List.mem_singleton, or_self, List.not_mem_nil,
      or_false] at ht
    subst ht
    intro b hb
    by_cases hpost : req.method = Method.POST
    · simp only [hpost, if_true] at hb
      cases hu : kvFindList req.postBody "username" with
      | none =>
        cases hp : kvFindList req.postBody "password" <;>
          simp only [hu, hp, templateSet, templateNew, List.nil_append, List.mem_append,
            List.mem_singleton, List.mem_cons, List.not_mem_nil, or_false] at hb
        · rcases hb with (rfl | rfl) | rfl <;> exact Or.inl (by decide)
        · rcases hb with rfl | rfl <;> exact Or.inl (by decide)
      | some u =>
        cases hp : kvFindList req.postBody "password" <;>
          simp only [hu, hp, templateSet, templateNew, List.nil_append, List.mem_append,
            List.mem_singleton, List.mem_cons, List.not_mem_nil, or_false] at hb
        · rcases hb with (rfl | rfl) | rfl
          · exact Or.inl (by decide)
          · exact Or.inr (Or.inr (Or.inr ⟨rfl, rfl⟩))
          · exact Or.inl (by decide)
        · rcases hb with rfl | rfl
          · exact Or.inl (by decide)
          · exact Or.inr (Or.inr (Or.inr ⟨rfl, rfl⟩))
    · simp only [hpost, if_false, templateSet, templateNew, List.nil_append,
        List.mem_singleton] at hb
      subst hb
      exact Or.inl (by decide)

/-- Two login forms with the same username field, both with or both without a password
field, get the same result from `login`. -/
theorem login_password_blind (env : Env σ τ) (req1 req2 : Request) (w : World σ)
    (hroute1 : env.exactRoute req1 "/login/" = true)
    (hroute2 : env.exactRoute req2 "/login/" = true)
    (hpost1 : req1.method = Method.POST) (hpost2 : req2.method = Method.POST)
    (husername : kvFindList req1.postBody "username" = kvFindList req2.postBody "username")
    (hpresent : (kvFindList req1.postBody "password").isSome
      = (kvFindList req2.postBody "password").isSome) :
    login env req1 w = login env req2 w := by
  simp only [login, hroute1, hroute2, hpost1, hpost2, husername, Bool.true_eq_false, if_false,
    if_true]
  cases h1 : kvFindList req1.postBody "password" <;>
    cases h2 : kvFindList req2.postBody "password" <;> simp_all

/-- Two signup forms with the same name, email and username fields, whose passwords are
present and pass or fail the length test and the confirm-password test alike: both
get a Response, and the Responses and the templates rendered and released are the same
unless createAccount was called on the same database and answered differently for the
two passwords. -/
theorem signup_password_runs (env : Env σ τ) (req1 req2 : Request) (w : World σ)
    (p1 p2 : String)
    (hroute1 : env.exactRoute req1 "/signup/" = true)
    (hroute2 : env.exactRoute req2 "/signup/" = true)
    (hpost1 : req1.method = Method.POST) (hpost2 : req2.method = Method.POST)
    (hname : kvFindList req1.postBody "name" = kvFindList req2.postBody "name")
    (hemail : kvFindList req1.postBody "email" = kvFindList req2.postBody "email")
    (husername : kvFindList req1.postBody "username" = kvFindList req2.postBody "username")
    (hp1 : kvFindList req1.postBody "password" = some p1)
    (hp2 : kvFindList req2.postBody "password" = some p2)
    (hlen : 8 ≤ p1.utf8ByteSize ↔ 8 ≤ p2.utf8ByteSize)
    (hconfirm : (kvFindList req1.postBody "confirm-password").isSome
      = (kvFindList req2.postBody "confirm-password").isSome)
    (hequal : kvFindList req1.postBody "confirm-password" = some p1
      ↔ kvFindList req2.postBody "confirm-password" = some p2) :
    ∃ r1 w1 r2 w2 new1 new2,
      signup env req1 w = .ok (some r1, w1) ∧ signup env req2 w = .ok (some r2, w2) ∧
      w1.log = w.log ++ new1 ∧ w2.log = w.log ++ new2 ∧
      ((r1 = r2 ∧ templatesOf new1 = templatesOf new2) ∨
        ∃ db,
          (createAccount env db (kvFindList req1.postBody "name")
              (kvFindList req1.postBody "email") (kvFindList req1.postBody "username")
              (some p1)).1
            ≠ (createAccount env db (kvFindList req1.postBody "name")
              (kvFindList req1.postBody "email") (kvFindList req1.postBody "username")
              (some p2)).1
          ∧ Event.createAccount (kvFindList req1.postBody "name")
              (kvFindList req1.postBody "email") (kvFindList req1.postBody "username")
              (some p1)
              (createAccount env db (kvFindList req1.postBody "name")
                (kvFindList req1.postBody "email") (kvFindList req1.postBody "username")
                (some p1)).1 ∈ new1
          ∧ Event.createAccount (kvFindList req1.postBody "name")
              (kvFindList req1.postBody "email") (kvFindList req1.postBody "username")
              (some p2)
              (createAccount env db (kvFindList req1.postBody "name")
                (kvFindList req1.postBody "email") (kvFindList req1.postBody "username")
                (some p2)).1 ∈ new2) := by
  obtain ⟨f1, h1, _⟩ := signupName_step (kvFindList req1.postBody "name")
    (kvFindList req1.postBody "email") (kvFindList req1.postBody "username")
    ⟨⟨"templates/signup.html", [("subtitle", "Sign Up")]⟩, true⟩
  obtain ⟨fe, h2, _⟩ := signupEmail_step env (kvFindList req1.postBody "name")
    (kvFindList req1.postBody "email") (kvFindList req1.postBody "username") f1 w.db
  obtain ⟨fu, h3, _⟩ := signupUsername_step env (kvFindList req1.postBody "name")
    (kvFindList req1.postBody "email") (kvFindList req1.postBody "username") fe.1 fe.2
  have h4a := signupPassword_some p1 fu.1
  have h4b : signupPassword (some p2) fu.1 = .ok
      (if p1.utf8ByteSize < 8 then
        invalid fu.1 "passwordError" "Your password must be at least 8 characters long!"
      else fu.1) := by
    rw [signupPassword_some]
    have : (p2.utf8ByteSize < 8) ↔ (p1.utf8ByteSize < 8) := by omega
    simp only [this]
  obtain ⟨f5, h5a, h5b⟩ : ∃ f5,
      signupConfirm (some p1) (kvFindList req1.postBody "confirm-password")
        (if p1.utf8ByteSize < 8 then
          invalid fu.1 "passwordError" "Your password must be at least 8 characters long!"
        else fu.1) = .ok f5 ∧
      signupConfirm (some p2) (kvFindList req2.postBody "confirm-password")
        (if p1.utf8ByteSize < 8 then
          invalid fu.1 "passwordError" "Your password must be at least 8 characters long!"
        else fu.1) = .ok f5 := by
    cases hc1 : kvFindList req1.postBody "confirm-password" with
    | none =>
      cases hc2 : kvFindList req2.postBody "confirm-password" with
      | none => exact ⟨_, rfl, rfl⟩
      | some c2 => simp [hc1, hc2] at hconfirm
    | some c1 =>
      cases hc2 : kvFindList req2.postBody "confirm-password" with
      | none => simp [hc1, hc2] at hconfirm
      | some c2 =>
        refine ⟨_, signupConfirm_some p1 c1 _, ?_⟩
        rw [signupConfirm_some]
        have : p2 = c2 ↔ p1 = c1 := by
          rw [hc1, hc2] at hequal
          simp only [Option.some.injEq] at hequal
          constructor
          · intro h; exact (hequal.mpr h.symm).symm
          · intro h; exact (hequal.mp h.symm).symm
        simp only [this]
  have hs1 := signup_post env req1 w f1 _ f5 fe fu hroute1 hpost1 h1 h2 h3
    (by rw [hp1]; exact h4a) (by rw [hp1]; exact h5a)
  have hs2 := signup_post env req2 w f1 _ f5 fe fu hroute2 hpost2 (by rw [← hname]; exact h1)
    (by rw [← hemail]; exact h2) (by rw [← husername]; exact h3)
    (by rw [hp2]; exact h4b) (by rw [hp2]; exact h5b)
  rw [← hname, ← hemail, ← husername, hp2] at hs2
  rw [hp1] at hs1
  by_cases hv : f5.valid = true
  · rw [if_pos hv] at hs1 hs2
    by_cases hcr1 : (createAccount env fu.2 (kvFindList req1.postBody "name")
        (kvFindList req1.postBody "email") (kvFindList req1.postBody "username")
        (some p1)).1 = true <;>
    by_cases hcr2 : (createAccount env fu.2 (kvFindList req1.postBody "name")
        (kvFindList req1.postBody "email") (kvFindList req1.postBody "username")
        (some p2)).1 = true
    · rw [if_pos hcr1] at hs1
      rw [if_pos hcr2] at hs2
      exact ⟨_, _, _, _, _, _, hs1, hs2, rfl, rfl,
        Or.inl ⟨rfl, by simp [templatesOf, Event.template?]⟩⟩
    · rw [if_pos hcr1] at hs1
      rw [if_neg hcr2] at hs2
      refine ⟨_, _, _, _, _, _, hs1, hs2, rfl, rfl, Or.inr ⟨fu.2, ?_, ?_, ?_⟩⟩
      · rw [hcr1]; intro h; exact hcr2 h.symm
      · rw [hcr1]; simp
      · have : (createAccount env fu.2 (kvFindList req1.postBody "name")
            (kvFindList req1.postBody "email") (kvFindList req1.postBody "username")
            (some p2)).1 = false := by simpa using hcr2
        rw [this]; simp
    · rw [if_neg hcr1] at hs1
      rw [if_pos hcr2] at hs2
      refine ⟨_, _, _, _, _, _, hs1, hs2, rfl, rfl, Or.inr ⟨fu.2, ?_, ?_, ?_⟩⟩
      · rw [hcr2]; exact hcr1
      · have : (createAccount env fu.2 (kvFindList req1.postBody "name")
            (kvFindList req1.postBody "email") (kvFindList req1.postBody "username")
            (some p1)).1 = false := by simpa using hcr1
        rw [this]; simp
      · rw [hcr2]; simp
    · rw [if_neg hcr1] at hs1
      rw [if_neg hcr2] at hs2
      exact ⟨_, _, _, _, _, _, hs1, hs2, rfl, rfl,
        Or.inl ⟨rfl, by simp [templatesOf, Event.template?]⟩⟩
  · rw [if_neg hv] at hs1 hs2
    exact ⟨_, _, _, _, _, _, hs1, hs2, rfl, rfl, Or.inl ⟨rfl, rfl⟩⟩

theorem insertAccountSql_ne_username :
    ¬ insertAccountSql = "SELECT id FROM accounts WHERE username = ?" := by
  decide

theorem insertAccountSql_ne_email :
    ¬ insertAccountSql = "SELECT id FROM accounts WHERE email = ?" := by
  decide

/-- With sqlite3 working as SQL defines it, `createAccount` succeeds exactly when the
email is not yet in the table: its answer does not depend on the password. -/
theorem createAccount_sqliteEnv (exactRoute : Request → String → Bool)
    (templateRender : Template → String) (staticHandler : Request → Option Response)
    (time : Int) (db : List Account) (name email username password : Option String) :
    (createAccount (sqliteEnv exactRoute templateRender staticHandler time) db name email
      username password).1 = !hasRow db Account.email email := by
  simp only [createAccount, sqliteEnv, sqliteStep, insertAccountSql_ne_username,
    insertAccountSql_ne_email, if_false, if_true, Stmt.text]
  cases h : hasRow db Account.email email <;>
    simp [List.lookup, h]

/-- C10: the submitted password is never echoed.  (1) Every template that signup
renders or releases binds only literal messages of `main.c` and the submitted name,
email and username, never the password or confirm-password field; (2) likewise login,
with the username.  (3) With sqlite3 working as SQL defines it on the table of
`initDB`, and for every route test, renderer, static handler, clock and table: two
POSTs that signup claims, which agree on name, email and username, whose passwords are
present and fare alike in the length test and in the confirm-password test (missing,
different, equal), get the same Response and the same template bindings.  (4) In every
environment, also one where sqlite3 calls fail at will, such two POSTs both get a
Response, and Response and bindings are the same unless createAccount was called and
answered differently for the two passwords.  (5) Two POSTs that login claims, which
agree on the username and on the presence of the password, get the same result. -/
theorem C10_password_not_echoed :
    (∀ (σ τ : Type) (env : Env σ τ) (req : Request) (w w1 : World σ) (r : Option Response),
        signup env req w = .ok (r, w1) →
        ∃ new, w1.log = w.log ++ new ∧ ∀ t ∈ templatesOf new, ∀ b ∈ t.bindings,
          Echoes (kvFindList req.postBody "name") (kvFindList req.postBody "email")
            (kvFindList req.postBody "username") b)
    ∧ (∀ (σ τ : Type) (env : Env σ τ) (req : Request) (w w1 : World σ) (r : Option Response),
        login env req w = .ok (r, w1) →
        ∃ new, w1.log = w.log ++ new ∧ ∀ t ∈ templatesOf new, ∀ b ∈ t.bindings,
          Echoes none none (kvFindList req.postBody "username") b)
    ∧ (∀ (exactRoute : Request → String → Bool) (templateRender : Template → String)
        (staticHandler : Request → Option Response) (time : Int)
        (req1 req2 : Request) (w : World (List Account)) (p1 p2 : String),
        exactRoute req1 "/signup/" = true → exactRoute req2 "/signup/" = true →
        req1.method = Method.POST → req2.method = Method.POST →
        kvFindList req1.postBody "name" = kvFindList req2.postBody "name" →
        kvFindList req1.postBody "email" = kvFindList req2.postBody "email" →
        kvFindList req1.postBody "username" = kvFindList req2.postBody "username" →
        kvFindList req1.postBody "password" = some p1 →
        kvFindList req2.postBody "password" = some p2 →
        (8 ≤ p1.utf8ByteSize ↔ 8 ≤ p2.utf8ByteSize) →
        (kvFindList req1.postBody "confirm-password").isSome
          = (kvFindList req2.postBody "confirm-password").isSome →
        (kvFindList req1.postBody "confirm-password" = some p1
          ↔ kvFindList req2.postBody "confirm-password" = some p2) →
        ∃ r w1 w2 new1 new2,
          signup (sqliteEnv exactRoute templateRender staticHandler time) req1 w
            = .ok (some r, w1)
          ∧ signup (sqliteEnv exactRoute templateRender staticHandler time) req2 w
            = .ok (some r, w2)
          ∧ w1.log = w.log ++ new1 ∧ w2.log = w.log ++ new2
          ∧ templatesOf new1 = templatesOf new2
          ∧ (templatesOf new1).map Template.bindings
            = (templatesOf new2).map Template.bindings)
    ∧ (∀ (σ τ : Type) (env : Env σ τ) (req1 req2 : Request) (w : World σ) (p1 p2 : String),
        env.exactRoute req1 "/signup/" = true → env.exactRoute req2 "/signup/" = true →
        req1.method = Method.POST → req2.method = Method.POST →
        kvFindList req1.postBody "name" = kvFindList req2.postBody "name" →
        kvFindList req1.postBody "email" = kvFindList req2.postBody "email" →
        kvFindList req1.postBody "username" = kvFindList req2.postBody "username" →
        kvFindList req1.postBody "password" = some p1 →
        kvFindList req2.postBody "password" = some p2 →
        (8 ≤ p1.utf8ByteSize ↔ 8 ≤ p2.utf8ByteSize) →
        (kvFindList req1.postBody "confirm-password").isSome
          = (kvFindList req2.postBody "confirm-password").isSome →
        (kvFindList req1.postBody "confirm-password" = some p1
          ↔ kvFindList req2.postBody "confirm-password" = some p2) →
        ∃ r1 w1 r2 w2 new1 new2,
          signup env req1 w = .ok (some r1, w1) ∧ signup env req2 w = .ok (some r2, w2) ∧
          w1.log = w.log ++ new1 ∧ w2.log = w.log ++ new2 ∧
          ((r1 = r2 ∧ templatesOf new1 = templatesOf new2) ∨
            ∃ db,
              (createAccount env db (kvFindList req1.postBody "name")
                  (kvFindList req1.postBody "email") (kvFindList req1.postBody "username")
                  (some p1)).1
                ≠ (createAccount env db (kvFindList req1.postBody "name")
                  (kvFindList req1.postBody "email") (kvFindList req1.postBody "username")
                  (some p2)).1
              ∧ Event.createAccount (kvFindList req1.postBody "name")
                  (kvFindList req1.postBody "email") (kvFindList req1.postBody "username")
                  (some p1)
                  (createAccount env db (kvFindList req1.postBody "name")
                    (kvFindList req1.postBody "email") (kvFindList req1.postBody "username")
                    (some p1)).1 ∈ new1
              ∧ Event.createAccount (kvFindList req1.postBody "name")
                  (kvFindList req1.postBody "email") (kvFindList req1.postBody "username")
                  (some p2)
                  (createAccount env db (kvFindList req1.postBody "name")
                    (kvFindList req1.postBody "email") (kvFindList req1.postBody "username")
                    (some p2)).1 ∈ new2))
    ∧ (∀ (σ τ : Type) (env : Env σ τ) (req1 req2 : Request) (w : World σ),
        env.exactRoute req1 "/login/" = true → env.exactRoute req2 "/login/" = true →
        req1.method = Method.POST → req2.method = Method.POST →
        kvFindList req1.postBody "username" = kvFindList req2.postBody "username" →
        (kvFindList req1.postBody "password").isSome
          = (kvFindList req2.postBody "password").isSome →
        login env req1 w = login env req2 w) := by
  refine ⟨?_, ?_, ?_, ?_, ?_⟩
  · intro σ τ env req w w1 r h
    exact signup_templates_echo env req w w1 r h
  · intro σ τ env req w w1 r h
    exact login_templates_echo env req w w1 r h
  · intro exactRoute templateRender staticHandler time req1 req2 w p1 p2
      a1 a2 a3 a4 a5 a6 a7 a8 a9 a10 a11 a12
    obtain ⟨r1, w1, r2, w2, new1, new2, h1, h2, l1, l2, hor⟩ :=
      signup_password_runs (sqliteEnv exactRoute templateRender staticHandler time)
        req1 req2 w p1 p2 a1 a2 a3 a4 a5 a6 a7 a8 a9 a10 a11 a12
    rcases hor with ⟨hr, ht⟩ | ⟨db, hne, _, _⟩
    · subst hr
      exact ⟨r1, w1, w2, new1, new2, h1, h2, l1, l2, ht, by rw [ht]⟩
    · exact absurd (by rw [createAccount_sqliteEnv, createAccount_sqliteEnv]) hne
  · intro σ τ env req1 req2 w p1 p2 a1 a2 a3 a4 a5 a6 a7 a8 a9 a10 a11 a12
    exact signup_password_runs env req1 req2 w p1 p2 a1 a2 a3 a4 a5 a6 a7 a8 a9 a10 a11 a12
  · intro σ τ env req1 req2 w a1 a2 a3 a4 a5 a6
    exact login_password_blind env req1 req2 w a1 a2 a3 a4 a5 a6

/-- C10 at a concrete input: two valid forms that differ in the password only, on an
empty table; both get the same Response and leave the same template bindings. -/
theorem C10_password_not_echoed_witness :
    ∃ r w1 w2 new1 new2,
      signup pathSqliteEnv (signupForm "12345678") emptyWorld = .ok (some r, w1)
      ∧ signup pathSqliteEnv (signupForm "abcdefgh") emptyWorld = .ok (some r, w2)
      ∧ w1.log = emptyWorld.log ++ new1 ∧ w2.log = emptyWorld.log ++ new2
      ∧ templatesOf new1 = templatesOf new2
      ∧ (templatesOf new1).map Template.bindings
        = (templatesOf new2).map Template.bindings :=
  C10_password_not_echoed.2.2.1 pathEnv.exactRoute pathEnv.templateRender
    pathEnv.staticHandler 0 (signupForm "12345678") (signupForm "abcdefgh") emptyWorld
    "12345678" "abcdefgh" rfl rfl rfl rfl rfl rfl rfl rfl rfl (by decide) rfl (by decide)

end Facebooc
